import Mathlib

/-!
Verification of the core pipeline of the DICOM sorting toolkit
(dicom_sorting_tool.py): classification, anonymization and
deterministic rename.  The Python code manipulates pydicom datasets;
this file gives a shallow embedding of the dataset operations the
program uses and of the program functions themselves, and proves
properties about them.

Modelling notes for the pydicom library (an external dependency of the
source, embedded here from its documented behaviour):
  a Dataset stores DICOM data elements keyed by a numeric tag
  (group * 65536 + element).  Attribute access by a standard keyword
  (for example PatientID) goes through the DICOM data dictionary;
  `setattr` with a name that is not a standard keyword stores a plain
  Python instance attribute that is not a data element and is not
  written to the output file.  Membership tests `s in dataset` first
  try to parse `s` as a hexadecimal tag and fall back to a keyword
  lookup.  `dataset.get(s)` for a string `s` only does keyword
  attribute lookup and returns the default when that fails.
  `dataset.dir()` returns the sorted keywords of the data elements
  present.  Reading an absent attribute raises AttributeError.
-/

/-- A Python exception kind that the modelled code can raise. -/

inductive PyExc where
  | attributeError
  | typeError
deriving DecidableEq, Repr

/-- A DICOM element value: a plain string, a multi-value list of
strings (for example ImageType), or the Python value None. -/

inductive DValue where
  | vs (s : String)
  | vl (l : List String)
  | vnone
deriving DecidableEq, Repr

/-- Association list lookup: the value of the first pair with the
given key (models Python dict lookup; key lists are duplicate free in
this development). -/

def alookup {α β : Type} [DecidableEq α] : List (α × β) → α → Option β
  | [], _ => none
  | p :: rest, k => if p.1 = k then some p.2 else alookup rest k

/-- Association list update: replace the value in place when the key is
present (as a Python dict assignment does), else append the pair at
the end. -/

def aset {α β : Type} [DecidableEq α] : List (α × β) → α → β → List (α × β)
  | [], k, v => [(k, v)]
  | p :: rest, k, v => if p.1 = k then (k, v) :: rest else p :: aset rest k v

def akeys {α β : Type} (l : List (α × β)) : List α := l.map Prod.fst

def dicomDict : List (String × Nat) :=
  [ ("PatientID", 0x00100020),
    ("PatientName", 0x00100010),
    ("PatientBirthDate", 0x00100030),
    ("PatientSex", 0x00100040),
    ("PatientAge", 0x00101010),
    ("PatientSize", 0x00101020),
    ("PatientWeight", 0x00101030),
    ("PatientAddress", 0x00101040),
    ("AcquisitionDate", 0x00080022),
    ("AccessionNumber", 0x00080050),
    ("Manufacturer", 0x00080070),
    ("InstitutionName", 0x00080080),
    ("ManufacturerModelName", 0x00081090),
    ("SeriesNumber", 0x00200011),
    ("SeriesDescription", 0x0008103E),
    ("StudyDate", 0x00080020),
    ("ImageType", 0x00080008),
    ("SOPClassUID", 0x00080016),
    ("SOPInstanceUID", 0x00080018),
    ("StudyInstanceUID", 0x0020000D),
    ("SeriesInstanceUID", 0x0020000E),
    ("FrameOfReferenceUID", 0x00200052),
    ("BurnedInAnnotation", 0x00280301),
    ("ProtocolName", 0x00181030) ]

/-- pydicom tag_for_keyword: the numeric tag of a standard keyword. -/

def tag_for_keyword (kw : String) : Option Nat := alookup dicomDict kw

/-- The keyword of a numeric tag, when the data dictionary has one
(private tags have none). -/

def keyword_for_tag (t : Nat) : Option String :=
  (dicomDict.find? (fun p => p.2 = t)).map Prod.fst

/-- Value of one hexadecimal digit, or none. -/

def hexDigitVal (c : Char) : Option Nat :=
  if c.isDigit then some (c.toNat - 48)
  else if 97 ≤ c.toNat ∧ c.toNat ≤ 102 then some (c.toNat - 87)
  else if 65 ≤ c.toNat ∧ c.toNat ≤ 70 then some (c.toNat - 55)
  else none

/-- Python int(s, 16) restricted to plain hexadecimal strings: all
characters are hex digits and the string is nonempty. -/

def hexParse (s : String) : Option Nat :=
  if s.data = [] then none
  else s.data.foldl
    (fun acc c =>
      match acc, hexDigitVal c with
      | some n, some d => some (n * 16 + d)
      | _, _ => none)
    (some 0)

/-- A pydicom Dataset: DICOM data elements keyed by numeric tag, plus
plain Python instance attributes (created by setattr with a name that
is not a standard DICOM keyword). -/

structure Dataset where
  elems : List (Nat × DValue)
  attrs : List (String × DValue)
deriving DecidableEq, Repr

/-- Lookup of a data element value by numeric tag. -/

def lookupTag (ds : Dataset) (t : Nat) : Option DValue := alookup ds.elems t

/-- pydicom attribute read (getattr): a plain instance attribute wins,
else the keyword is resolved through the data dictionary to a data
element; none models AttributeError. -/

def pyGetattrOpt (ds : Dataset) (name : String) : Option DValue :=
  match alookup ds.attrs name with
  | some v => some v
  | none =>
    match tag_for_keyword name with
    | some t => lookupTag ds t
    | none => none

/-- pydicom attribute read that raises AttributeError when absent. -/

def getattrE (ds : Dataset) (name : String) : Except PyExc DValue :=
  match pyGetattrOpt ds name with
  | some v => Except.ok v
  | none => Except.error PyExc.attributeError

/-- pydicom setattr: a standard keyword updates the data element, any
other name becomes a plain instance attribute. -/

def setattrPy (ds : Dataset) (name : String) (v : DValue) : Dataset :=
  match tag_for_keyword name with
  | some t => { ds with elems := aset ds.elems t v }
  | none => { ds with attrs := aset ds.attrs name v }

/-- pydicom membership test `s in dataset`: the string is first parsed
as a hexadecimal tag, with keyword lookup as fallback; any failure
yields false. -/

def pyContains (ds : Dataset) (s : String) : Bool :=
  match hexParse s with
  | some t => (lookupTag ds t).isSome
  | none =>
    match tag_for_keyword s with
    | some t => (lookupTag ds t).isSome
    | none => false

/-- pydicom Dataset.get with a string key and default None: keyword
attribute lookup only; returns none (Python None) when the attribute
is missing, in particular for every key that is a hexadecimal tag
string rather than a keyword. -/

def pyGetStr (ds : Dataset) (name : String) : Option DValue :=
  pyGetattrOpt ds name

/-- Lexicographic order on character lists by code point, as Python
string comparison. -/

def charListLe : List Char → List Char → Bool
  | [], _ => true
  | _ :: _, [] => false
  | a :: as, b :: bs =>
    if a.toNat < b.toNat then true
    else if b.toNat < a.toNat then false
    else charListLe as bs

/-- Python string comparison. -/

def strLeB (a b : String) : Bool := charListLe a.data b.data

/-- Insert into a sorted list. -/

def insertSorted (x : String) : List String → List String
  | [] => [x]
  | y :: t => if strLeB x y then x :: y :: t else y :: insertSorted x t

/-- Insertion sort (the sorted function of Python, restricted to the
duplicate free keyword lists it is applied to here). -/

def sortStrings : List String → List String
  | [] => []
  | x :: t => insertSorted x (sortStrings t)

/-- pydicom Dataset.dir(): the sorted keywords of the data elements
present in the dataset. -/

def pyDir (ds : Dataset) : List String :=
  sortStrings ((ds.elems.filterMap (fun p => keyword_for_tag p.1)).dedup)

/-- pydicom remove_private_tags: drops every element whose group
number is odd. -/

def removePrivate (ds : Dataset) : Dataset :=
  { ds with elems := ds.elems.filter (fun p => (p.1 / 65536) % 2 = 0) }

/-- Python str() of an element value, as the program sees it
(pydicom MultiValue prints like a Python list of quoted strings). -/

def quoteChar : String := (Char.ofNat 39).toString

/-- Python str() of a modelled value. -/

def asPyStr : DValue → String
  | DValue.vs s => s
  | DValue.vl l =>
      "[" ++ String.intercalate ", " (l.map (fun x => quoteChar ++ x ++ quoteChar)) ++ "]"
  | DValue.vnone => "None"

/-- get_dicom_attribute from the source: str(getattr(dataset, a)) with
AttributeError mapped to the UNKNOWN sentinel. -/

def get_dicom_attribute (ds : Dataset) (attrName : String) : String :=
  match pyGetattrOpt ds attrName with
  | some v => asPyStr v
  | none => "UNKNOWN"

/-- Python str.startswith. -/

def startsWithStr (s pre : String) : Bool := pre.data.isPrefixOf s.data

/-- Python str.endswith. -/

def endsWithStr (s suf : String) : Bool :=
  suf.data.reverse.isPrefixOf s.data.reverse

/-- ASCII case mapping of Python str.upper for the characters this
program meets. -/

def upperStr (s : String) : String := String.mk (s.data.map Char.toUpper)

/-- ASCII case mapping of Python str.lower for the characters this
program meets. -/

def lowerStr (s : String) : String := String.mk (s.data.map Char.toLower)

/-- Python str.split(sep) on a single separator character. -/

def splitOnCharAux (sep : Char) : List Char → List Char → List (List Char)
  | [], acc => [acc.reverse]
  | c :: t, acc =>
    if c = sep then acc.reverse :: splitOnCharAux sep t []
    else splitOnCharAux sep t (c :: acc)

/-- Python str.split(sep) on a single separator character. -/

def splitOnChar (s : String) (sep : Char) : List String :=
  (splitOnCharAux sep s.data []).map String.mk

/-- Python str.replace on character lists, leftmost non overlapping
occurrences; the fuel starts at the list length and bounds the
recursion. -/

def replaceAux (pat rep : List Char) : Nat → List Char → List Char
  | 0, cs => cs
  | fuel + 1, cs =>
    match cs with
    | [] => []
    | c :: t =>
      if ¬ pat.isEmpty ∧ pat.isPrefixOf (c :: t) then
        rep ++ replaceAux pat rep fuel ((c :: t).drop pat.length)
      else c :: replaceAux pat rep fuel t

/-- Python str.replace. -/

def replaceStr (s pat rep : String) : String :=
  String.mk (replaceAux pat.data rep.data s.data.length s.data)

/-- Numeric value of a list of decimal digit characters. -/

def natOfDigits (cs : List Char) : Nat :=
  cs.foldl (fun a c => a * 10 + (c.toNat - 48)) 0

/-- Month alternatives of the CPython strptime regex for the %m
directive, in preference order: 1[0-2], 0[1-9], [1-9].  Each candidate
is the parsed month with the remaining input. -/

def monthCands (cs : List Char) : List (Nat × List Char) :=
  (match cs with
   | c1 :: c2 :: rest =>
     if c1 = Char.ofNat 49 ∧ (c2.toNat ≥ 48 ∧ c2.toNat ≤ 50) then
       [(10 + (c2.toNat - 48), rest)]
     else []
   | _ => []) ++
  (match cs with
   | c1 :: c2 :: rest =>
     if c1 = Char.ofNat 48 ∧ (c2.toNat ≥ 49 ∧ c2.toNat ≤ 57) then
       [(c2.toNat - 48, rest)]
     else []
   | _ => []) ++
  (match cs with
   | c1 :: rest =>
     if c1.toNat ≥ 49 ∧ c1.toNat ≤ 57 then [(c1.toNat - 48, rest)] else []
   | _ => [])

/-- Day alternatives of the CPython strptime regex for the %d
directive, in preference order: 3[01], [12][0-9], 0[1-9], [1-9]. -/

def dayCands (cs : List Char) : List (Nat × List Char) :=
  (match cs with
   | c1 :: c2 :: rest =>
     if c1 = Char.ofNat 51 ∧ (c2.toNat ≥ 48 ∧ c2.toNat ≤ 49) then
       [(30 + (c2.toNat - 48), rest)]
     else []
   | _ => []) ++
  (match cs with
   | c1 :: c2 :: rest =>
     if (c1.toNat ≥ 49 ∧ c1.toNat ≤ 50) ∧ c2.isDigit then
       [((c1.toNat - 48) * 10 + (c2.toNat - 48), rest)]
     else []
   | _ => []) ++
  (match cs with
   | c1 :: c2 :: rest =>
     if c1 = Char.ofNat 48 ∧ (c2.toNat ≥ 49 ∧ c2.toNat ≤ 57) then
       [(c2.toNat - 48, rest)]
     else []
   | _ => []) ++
  (match cs with
   | c1 :: rest =>
     if c1.toNat ≥ 49 ∧ c1.toNat ≤ 57 then [(c1.toNat - 48, rest)] else []
   | _ => [])

/-- Whether a year is a leap year (proleptic Gregorian, as Python
datetime uses). -/

def isLeap (y : Nat) : Bool := y % 4 = 0 ∧ (y % 100 ≠ 0 ∨ y % 400 = 0)

/-- Days in a month of a year. -/

def daysInMonth (y m : Nat) : Nat :=
  if m = 2 then (if isLeap y then 29 else 28)
  else if m = 4 ∨ m = 6 ∨ m = 9 ∨ m = 11 then 30
  else 31

/-- Whether the datetime constructor accepts year, month, day. -/

def validDate (y m d : Nat) : Bool :=
  1 ≤ y ∧ y ≤ 9999 ∧ 1 ≤ m ∧ m ≤ 12 ∧ 1 ≤ d ∧ d ≤ daysInMonth y m

/-- Modelled from the Python library: datetime.strptime(s, the format
with %Y%m%d) followed by the datetime constructor validity check.  %Y
matches exactly four digits; %m and %d follow the regex alternatives
above, with backtracking, and the whole string must be consumed; the
first full regex match is then validated as a calendar date
(ValueError on failure, modelled as none). -/

def strptimeYmd (s : String) : Option (Nat × Nat × Nat) :=
  let cs := s.data
  let ycs := cs.take 4
  if ycs.length = 4 ∧ ycs.all Char.isDigit then
    let y := natOfDigits ycs
    let rest := cs.drop 4
    match (monthCands rest).findSome? (fun mc =>
            (dayCands mc.2).findSome? (fun dc =>
              if dc.2 = [] then some (mc.1, dc.1) else none)) with
    | some (m, d) => if validDate y m d then some (y, m, d) else none
    | none => none
  else none

/-- Left pad a decimal string with zeros to the given width. -/

def padZeroLeft (s : String) (n : Nat) : String :=
  String.mk (List.replicate (n - s.length) (Char.ofNat 48)) ++ s

/-- strftime %Y%m%d of a parsed date (year zero padded to 4 digits,
month and day to 2). -/

def fmtYmd (y m d : Nat) : String :=
  padZeroLeft (toString y) 4 ++ padZeroLeft (toString m) 2 ++
    padZeroLeft (toString d) 2

/-- generate_dummy_date from the source: empty input or a parse
failure yields the fixed epoch date; a parsed date keeps its year and,
when anonymize_to_first_of_year is set, moves to January 1. -/

def generate_dummy_date (original_date : String)
    (anonymize_to_first_of_year : Bool) : String :=
  if original_date = "" then "20000101"
  else
    match strptimeYmd original_date with
    | some (y, m, d) =>
        if anonymize_to_first_of_year then fmtYmd y 1 1 else fmtYmd y m d
    | none => "20000101"

/-- UTF-8 bytes of one character (standard encoding of its code
point). -/

def utf8CharBytes (c : Char) : List Nat :=
  let u := c.toNat
  if u < 128 then [u]
  else if u < 2048 then [192 + u / 64, 128 + u % 64]
  else if u < 65536 then [224 + u / 4096, 128 + u / 64 % 64, 128 + u % 64]
  else [240 + u / 262144, 128 + u / 4096 % 64, 128 + u / 64 % 64, 128 + u % 64]

/-- UTF-8 bytes of a string (Python str.encode()). -/

def encodeUTF8 (s : String) : List Nat :=
  s.data.flatMap utf8CharBytes

/-- Modulus for 32 bit arithmetic. -/

def M32 : Nat := 4294967296

/-- 32 bit addition. -/

def add32 (a b : Nat) : Nat := (a + b) % M32

/-- 32 bit bitwise complement. -/

def not32 (x : Nat) : Nat := Nat.xor x 4294967295

/-- 32 bit left rotation. -/

def rotl32 (x n : Nat) : Nat :=
  Nat.lor ((x <<< n) % M32) (x >>> (32 - n))

/-- 32 bit right rotation. -/

def rotr32 (x n : Nat) : Nat :=
  Nat.lor (x >>> n) ((x <<< (32 - n)) % M32)

/-- Lowercase hexadecimal digit character. -/

def hexDigitChar (n : Nat) : Char :=
  if n < 10 then Char.ofNat (48 + n) else Char.ofNat (87 + n)

/-- Two lowercase hexadecimal digits of a byte. -/

def byteHex (b : Nat) : List Char :=
  [hexDigitChar (b / 16 % 16), hexDigitChar (b % 16)]

/-- Little endian bytes of a 32 bit word. -/

def leBytes32 (w : Nat) : List Nat :=
  [w % 256, w / 256 % 256, w / 65536 % 256, w / 16777216 % 256]

/-- Big endian bytes of a 32 bit word. -/

def beBytes32 (w : Nat) : List Nat :=
  [w / 16777216 % 256, w / 65536 % 256, w / 256 % 256, w % 256]

/-- Split a byte list into 64 byte blocks (length is a multiple of 64
after padding). -/

def blocks64 (l : List Nat) : List (List Nat) :=
  (List.range (l.length / 64)).map (fun i => (l.drop (64 * i)).take 64)

/-- MD5 sine table (RFC 1321). -/

def md5K : List Nat :=
  [ 3614090360, 3905402710, 606105819, 3250441966, 4118548399,
    1200080426, 2821735955, 4249261313, 1770035416, 2336552879,
    4294925233, 2304563134, 1804603682, 4254626195, 2792965006,
    1236535329, 4129170786, 3225465664, 643717713, 3921069994,
    3593408605, 38016083, 3634488961, 3889429448, 568446438,
    3275163606, 4107603335, 1163531501, 2850285829, 4243563512,
    1735328473, 2368359562, 4294588738, 2272392833, 1839030562,
    4259657740, 2763975236, 1272893353, 4139469664, 3200236656,
    681279174, 3936430074, 3572445317, 76029189, 3654602809,
    3873151461, 530742520, 3299628645, 4096336452, 1126891415,
    2878612391, 4237533241, 1700485571, 2399980690, 4293915773,
    2240044497, 1873313359, 4264355552, 2734768916, 1309151649,
    4149444226, 3174756917, 718787259, 3951481745 ]

/-- MD5 per round shift amounts. -/

def md5S : List Nat :=
  [ 7, 12, 17, 22, 7, 12, 17, 22, 7, 12, 17, 22, 7, 12, 17, 22,
    5, 9, 14, 20, 5, 9, 14, 20, 5, 9, 14, 20, 5, 9, 14, 20,
    4, 11, 16, 23, 4, 11, 16, 23, 4, 11, 16, 23, 4, 11, 16, 23,
    6, 10, 15, 21, 6, 10, 15, 21, 6, 10, 15, 21, 6, 10, 15, 21 ]

/-- Message padding shared by MD5 and SHA-256: append the byte 128 and
zeros so that the length is 56 modulo 64, then the 8 byte bit length
(little endian for MD5, big endian for SHA-256). -/

def padMessage (msg : List Nat) (bigEndianLen : Bool) : List Nat :=
  let bitLen := (msg.length * 8) % 18446744073709551616
  let zeros := (119 - msg.length % 64) % 64
  let lenBytes :=
    (List.range 8).map (fun i => bitLen / (256 ^ i) % 256)
  msg ++ [128] ++ List.replicate zeros 0 ++
    (if bigEndianLen then lenBytes.reverse else lenBytes)

/-- The 16 little endian words of a 64 byte MD5 block. -/

def md5BlockWords (b : List Nat) : List Nat :=
  (List.range 16).map (fun j =>
    b.getD (4 * j) 0 + 256 * b.getD (4 * j + 1) 0 +
      65536 * b.getD (4 * j + 2) 0 + 16777216 * b.getD (4 * j + 3) 0)

/-- One MD5 round. -/

def md5Round (m : List Nat) (st : Nat × Nat × Nat × Nat) (i : Nat) :
    Nat × Nat × Nat × Nat :=
  match st with
  | (a, b, c, d) =>
    let fg : Nat × Nat :=
      if i < 16 then
        (Nat.lor (Nat.land b c) (Nat.land (not32 b) d), i)
      else if i < 32 then
        (Nat.lor (Nat.land d b) (Nat.land (not32 d) c), (5 * i + 1) % 16)
      else if i < 48 then
        (Nat.xor (Nat.xor b c) d, (3 * i + 5) % 16)
      else
        (Nat.xor c (Nat.lor b (not32 d)), (7 * i) % 16)
    let f := add32 (add32 (add32 fg.1 a) (md5K.getD i 0)) (m.getD fg.2 0)
    (d, add32 b (rotl32 f (md5S.getD i 0)), b, c)

/-- MD5 compression of one block. -/

def md5Block (st : Nat × Nat × Nat × Nat) (blk : List Nat) :
    Nat × Nat × Nat × Nat :=
  let m := md5BlockWords blk
  let r := (List.range 64).foldl (md5Round m) st
  match st, r with
  | (a0, b0, c0, d0), (a, b, c, d) =>
    (add32 a0 a, add32 b0 b, add32 c0 c, add32 d0 d)

/-- MD5 digest of a byte list, as the list of 16 digest bytes. -/

def md5Bytes (msg : List Nat) : List Nat :=
  let padded := padMessage msg false
  let st := (blocks64 padded).foldl md5Block
    (1732584193, 4023233417, 2562383102, 271733878)
  match st with
  | (a, b, c, d) => leBytes32 a ++ leBytes32 b ++ leBytes32 c ++ leBytes32 d

/-- hashlib.md5(x).hexdigest(): lowercase hexadecimal digest string.
Modelled from the MD5 specification used by the Python library. -/

def md5Hex (s : String) : String :=
  String.mk ((md5Bytes (encodeUTF8 s)).flatMap byteHex)

/-- SHA-256 round constants. -/

def sha256K : List Nat :=
  [ 1116352408, 1899447441, 3049323471, 3921009573, 961987163,
    1508970993, 2453635748, 2870763221, 3624381080, 310598401,
    607225278, 1426881987, 1925078388, 2162078206, 2614888103,
    3248222580, 3835390401, 4022224774, 264347078, 604807628,
    770255983, 1249150122, 1555081692, 1996064986, 2554220882,
    2821834349, 2952996808, 3210313671, 3336571891, 3584528711,
    113926993, 338241895, 666307205, 773529912, 1294757372,
    1396182291, 1695183700, 1986661051, 2177026350, 2456956037,
    2730485921, 2820302411, 3259730800, 3345764771, 3516065817,
    3600352804, 4094571909, 275423344, 430227734, 506948616,
    659060556, 883997877, 958139571, 1322822218, 1537002063,
    1747873779, 1955562222, 2024104815, 2227730452, 2361852424,
    2428436474, 2756734187, 3204031479, 3329325298 ]

/-- The 16 big endian words of a 64 byte SHA-256 block. -/

def shaBlockWords (b : List Nat) : List Nat :=
  (List.range 16).map (fun j =>
    16777216 * b.getD (4 * j) 0 + 65536 * b.getD (4 * j + 1) 0 +
      256 * b.getD (4 * j + 2) 0 + b.getD (4 * j + 3) 0)

/-- SHA-256 message schedule: extend 16 words to 64. -/

def shaSchedule (w16 : List Nat) : List Nat :=
  (List.range 48).foldl
    (fun w j =>
      let s0 := Nat.xor (Nat.xor (rotr32 (w.getD (j + 1) 0) 7)
        (rotr32 (w.getD (j + 1) 0) 18)) ((w.getD (j + 1) 0) >>> 3)
      let s1 := Nat.xor (Nat.xor (rotr32 (w.getD (j + 14) 0) 17)
        (rotr32 (w.getD (j + 14) 0) 19)) ((w.getD (j + 14) 0) >>> 10)
      w ++ [add32 (add32 (w.getD j 0) s0) (add32 (w.getD (j + 9) 0) s1)])
    w16

/-- One SHA-256 compression round. -/

def shaRound (w : List Nat)
    (st : Nat × Nat × Nat × Nat × Nat × Nat × Nat × Nat) (i : Nat) :
    Nat × Nat × Nat × Nat × Nat × Nat × Nat × Nat :=
  match st with
  | (a, b, c, d, e, f, g, h) =>
    let s1 := Nat.xor (Nat.xor (rotr32 e 6) (rotr32 e 11)) (rotr32 e 25)
    let ch := Nat.xor (Nat.land e f) (Nat.land (not32 e) g)
    let t1 := add32 (add32 (add32 h s1) (add32 ch (sha256K.getD i 0)))
      (w.getD i 0)
    let s0 := Nat.xor (Nat.xor (rotr32 a 2) (rotr32 a 13)) (rotr32 a 22)
    let mj := Nat.xor (Nat.xor (Nat.land a b) (Nat.land a c)) (Nat.land b c)
    let t2 := add32 s0 mj
    (add32 t1 t2, a, b, c, add32 d t1, e, f, g)

/-- SHA-256 compression of one block. -/

def shaBlock (st : Nat × Nat × Nat × Nat × Nat × Nat × Nat × Nat)
    (blk : List Nat) : Nat × Nat × Nat × Nat × Nat × Nat × Nat × Nat :=
  let w := shaSchedule (shaBlockWords blk)
  let r := (List.range 64).foldl (shaRound w) st
  match st, r with
  | (a0, b0, c0, d0, e0, f0, g0, h0), (a, b, c, d, e, f, g, h) =>
    (add32 a0 a, add32 b0 b, add32 c0 c, add32 d0 d,
     add32 e0 e, add32 f0 f, add32 g0 g, add32 h0 h)

/-- SHA-256 digest bytes of a byte list. -/

def sha256Bytes (msg : List Nat) : List Nat :=
  let padded := padMessage msg true
  let st := (blocks64 padded).foldl shaBlock
    (1779033703, 3144134277, 1013904242, 2773480762,
     1359893119, 2600822924, 528734635, 1541459225)
  match st with
  | (a, b, c, d, e, f, g, h) =>
    beBytes32 a ++ beBytes32 b ++ beBytes32 c ++ beBytes32 d ++
      beBytes32 e ++ beBytes32 f ++ beBytes32 g ++ beBytes32 h

/-- hashlib.sha256(x).hexdigest(): lowercase hexadecimal digest string.
Modelled from the SHA-256 specification used by the Python library. -/

def sha256Hex (s : String) : String :=
  String.mk ((sha256Bytes (encodeUTF8 s)).flatMap byteHex)

/-- generate_dummy_id from the source: the first 8 characters of the
MD5 hexdigest of the identifier. -/

def generate_dummy_id (original_id : String) : String :=
  (md5Hex original_id).take 8

/-- generate_dummy_uid from the source: keep the first four dot
separated parts, then append the first 16 characters of the decimal
rendering of the SHA-256 hexdigest characters. -/

def generate_dummy_uid (original_uid : String) : String :=
  let uid_parts := splitOnChar original_uid (Char.ofNat 46)
  let kept := String.intercalate "." (uid_parts.take 4)
  let numeric_hash :=
    String.join ((sha256Hex original_uid).data.map
      (fun c => toString ((hexDigitVal c).getD 0)))
  kept ++ "." ++ numeric_hash.take 16

/-- Helper for the substring test: does the first list occur as a
contiguous sublist of the second. -/

def strContainsAux (n : List Char) : List Char → Bool
  | [] => n.isEmpty
  | c :: t => n.isPrefixOf (c :: t) || strContainsAux n t

/-- Substring test: Python `needle in hay` on strings. -/

def strContains (hay needle : String) : Bool :=
  strContainsAux needle.data hay.data


/-- The boolean flags of anonymize_dicom_tags. -/

structure AnonFlags where
  strict : Bool := false
  id_from_name : Bool := false
  anonymize_birth_date : Bool := false
  anonymize_acquisition_date : Bool := false
  preserve_private_tags : Bool := false
  anonymize_accession : Bool := false
deriving DecidableEq, Repr

/-- The preserved tag list of anonymize_dicom_tags, exactly as the
source writes it (hexadecimal tag strings). -/

def preserved_tags : List String :=
  [ "00080070", "00081090", "00181030", "00189423", "00080020", "00180087",
    "00080080", "00200011", "0008103E", "00540081", "00181310", "00280030",
    "00180088", "00180050", "00180080", "00180081", "00180086", "00180091",
    "00180082", "00181314", "00080008", "00189073", "2001101B", "200110C8",
    "00080032", "00080033", "00200100", "00200110", "00209111", "00189074",
    "20050010", "20050014", "20051404", "20051406", "20010010", "20010011",
    "20010090", "20051000", "20051001", "20051002", "20051008", "20051009",
    "2005100a", "20051355" ]

/-- The UID keywords the strict pass leaves unchanged. -/

def preserved_uids : List String :=
  ["StudyInstanceUID", "SeriesInstanceUID", "FrameOfReferenceUID"]

/-- The snapshot of preserved tag values the source takes before
anonymizing: for every preserved tag string contained in the dataset,
the value of dataset.get(tag) - which is the keyword attribute lookup
and therefore Python None for these hexadecimal strings. -/

def snapshotPreserved (ds : Dataset) : List (String × Option DValue) :=
  preserved_tags.filterMap
    (fun t => if pyContains ds t then some (t, pyGetStr ds t) else none)

/-- The original identifier read: PatientName when id_from_name is
set, else PatientID; reading raises AttributeError when absent. -/

def resolveOriginalId (ds : Dataset) (id_from_name : Bool) :
    Except PyExc DValue :=
  getattrE ds (if id_from_name then "PatientName" else "PatientID")

/-- Python truthiness of the optional correlation dict. -/

def idMapTruthy (id_map : Option (List (String × String))) : Bool :=
  match id_map with
  | some m => ¬ m.isEmpty
  | none => false

/-- The correlation lookup as the source performs it: the table branch
is taken only when the dict is truthy and the key is present. -/

def lookupCorr (id_map : Option (List (String × String))) (x : String) :
    Option String :=
  match id_map with
  | some m => if m.isEmpty then none else alookup m x
  | none => none

/-- The new identifier: the correlation table entry when the truthy
table has one, else the deterministic MD5 pseudonym.  A non string
identifier raises: a list value is unhashable in the dict membership
test (TypeError) and has no encode method (AttributeError); the
Python value None fails the membership test and then has no encode
method. -/

def resolveNewId (id_map : Option (List (String × String))) (orig : DValue) :
    Except PyExc String :=
  match orig with
  | DValue.vs s =>
    match lookupCorr id_map s with
    | some n => Except.ok n
    | none => Except.ok (generate_dummy_id s)
  | DValue.vl _ =>
    if idMapTruthy id_map then Except.error PyExc.typeError
    else Except.error PyExc.attributeError
  | DValue.vnone => Except.error PyExc.attributeError

/-- generate_dummy_date applied to an attribute value as Python would:
None and the empty list are falsy and give the epoch date, a nonempty
list raises TypeError inside strptime, a string is parsed. -/

def genDummyDateE (v : DValue) (firstOfYear : Bool) : Except PyExc String :=
  match v with
  | DValue.vs s => Except.ok (generate_dummy_date s firstOfYear)
  | DValue.vl [] => Except.ok "20000101"
  | DValue.vl _ => Except.error PyExc.typeError
  | DValue.vnone => Except.ok "20000101"

/-- generate_dummy_id applied to an attribute value as Python would:
only strings have an encode method. -/

def genDummyIdE (v : DValue) : Except PyExc String :=
  match v with
  | DValue.vs s => Except.ok (generate_dummy_id s)
  | _ => Except.error PyExc.attributeError

/-- generate_dummy_uid applied to an attribute value as Python would:
only strings have a split method. -/

def genDummyUidE (v : DValue) : Except PyExc String :=
  match v with
  | DValue.vs s => Except.ok (generate_dummy_uid s)
  | _ => Except.error PyExc.attributeError

/-- One date field step of anonymize_dicom_tags: when the field is
contained in the dataset and the toggle is on, replace it with the
dummy date (first of year). -/

def dateFieldStep (ds : Dataset) (field : String) (enabled : Bool) :
    Except PyExc Dataset :=
  if pyContains ds field ∧ enabled then
    match pyGetattrOpt ds field with
    | some v =>
      match genDummyDateE v true with
      | Except.ok s => Except.ok (setattrPy ds field (DValue.vs s))
      | Except.error e => Except.error e
    | none => Except.error PyExc.attributeError
  else Except.ok ds

/-- The accession number step: replace AccessionNumber with the
random 16 digit string (given here as an explicit argument standing
for the random draw) when requested and the tag 00080050 is present. -/

def accessionStep (ds : Dataset) (enabled : Bool) (randDigits : String) :
    Dataset :=
  if enabled ∧ pyContains ds "00080050" then
    setattrPy ds "AccessionNumber" (DValue.vs randDigits)
  else ds

/-- The new value the strict loop of anonymize_dicom_tags assigns to
one keyword from dataset.dir(), following the branch structure of the
source: none when the branch leaves the tag alone (preserved list,
already handled identifiers, preserved UIDs, or no matching branch),
some value when the branch performs a setattr, an error when the
branch raises. -/

def strictNewVal (ds : Dataset) (tag : String) : Except PyExc (Option DValue) :=
  if tag ∈ preserved_tags then Except.ok none
  else if startsWithStr tag "Patient" then
    if tag = "PatientID" ∨ tag = "PatientName" ∨ tag = "PatientBirthDate" then
      Except.ok none
    else if tag = "PatientSex" then Except.ok (some (DValue.vs "O"))
    else if tag = "PatientAge" then Except.ok (some (DValue.vs "000Y"))
    else if tag = "PatientWeight" ∨ tag = "PatientSize" then
      Except.ok (some (DValue.vs ""))
    else if strContains tag "Date" then
      match getattrE ds tag with
      | Except.ok v =>
        match genDummyDateE v false with
        | Except.ok s => Except.ok (some (DValue.vs s))
        | Except.error e => Except.error e
      | Except.error e => Except.error e
    else if strContains tag "ID" then
      match getattrE ds tag with
      | Except.ok v =>
        match genDummyIdE v with
        | Except.ok s => Except.ok (some (DValue.vs s))
        | Except.error e => Except.error e
      | Except.error e => Except.error e
    else Except.ok (some (DValue.vs "ANONYMIZED"))
  else if endsWithStr tag "UID" then
    if tag ∈ preserved_uids then Except.ok none
    else
      match getattrE ds tag with
      | Except.ok v =>
        match genDummyUidE v with
        | Except.ok s => Except.ok (some (DValue.vs s))
        | Except.error e => Except.error e
      | Except.error e => Except.error e
  else Except.ok none

/-- One iteration of the strict loop: perform the setattr the branch
asks for, if any. -/

def strictStep (ds : Dataset) (tag : String) : Except PyExc Dataset :=
  match strictNewVal ds tag with
  | Except.error e => Except.error e
  | Except.ok none => Except.ok ds
  | Except.ok (some v) => Except.ok (setattrPy ds tag v)

/-- The strict phase: remove private tags unless preserved, then run
the strict step over dataset.dir(). -/

def strictPhase (ds : Dataset) (fl : AnonFlags) : Except PyExc Dataset :=
  if fl.strict then
    let ds1 := if ¬ fl.preserve_private_tags then removePrivate ds else ds
    (pyDir ds1).foldlM strictStep ds1
  else Except.ok ds

/-- The restore loop of anonymize_dicom_tags: setattr of every
snapshot entry.  The snapshot keys are hexadecimal tag strings, which
are not DICOM keywords, so each setattr creates a plain instance
attribute carrying the snapshot value (Python None). -/

def restorePreserved (pv : List (String × Option DValue)) (ds : Dataset) :
    Dataset :=
  pv.foldl
    (fun d p => setattrPy d p.1 (match p.2 with
      | some v => v
      | none => DValue.vnone)) ds

/-- anonymize_dicom_tags from the source: snapshot the preserved tag
values, rewrite the identifier from the correlation table or the MD5
pseudonym and assign it to PatientID and PatientName, anonymize the
birth and acquisition dates and the accession number when toggled,
run the strict pass when requested, and replay the snapshot. -/

def anonymize_dicom_tags (ds : Dataset)
    (id_map : Option (List (String × String))) (fl : AnonFlags)
    (randDigits : String) : Except PyExc Dataset :=
  let pv := snapshotPreserved ds
  match resolveOriginalId ds fl.id_from_name with
  | Except.error e => Except.error e
  | Except.ok orig =>
    match resolveNewId id_map orig with
    | Except.error e => Except.error e
    | Except.ok new_id =>
      let ds1 := setattrPy (setattrPy ds "PatientID" (DValue.vs new_id))
        "PatientName" (DValue.vs new_id)
      match dateFieldStep ds1 "PatientBirthDate" fl.anonymize_birth_date with
      | Except.error e => Except.error e
      | Except.ok ds2 =>
        match dateFieldStep ds2 "AcquisitionDate"
            fl.anonymize_acquisition_date with
        | Except.error e => Except.error e
        | Except.ok ds3 =>
          let ds4 := accessionStep ds3 fl.anonymize_accession randDigits
          match strictPhase ds4 fl with
          | Except.error e => Except.error e
          | Except.ok ds5 => Except.ok (restorePreserved pv ds5)

/-- Items obtained by iterating an ImageType value in Python: a multi
value iterates its strings, a plain string iterates its characters,
None raises TypeError. -/

def imageTypeItems (v : DValue) : Except PyExc (List String) :=
  match v with
  | DValue.vl l => Except.ok l
  | DValue.vs s => Except.ok (s.data.map Char.toString)
  | DValue.vnone => Except.error PyExc.typeError

/-- is_derived_image from the source (the active, uncommented
version).  SeriesNumber is read by the source but unused by the
decision, so it is omitted here.  The logging calls are side effects
outside the model. -/

def is_derived_image (ds : Dataset) : Except PyExc Bool :=
  match (if pyContains ds "ImageType" then
           (getattrE ds "ImageType").bind imageTypeItems
         else Except.ok []) with
  | Except.error e => Except.error e
  | Except.ok image_type =>
    match (if pyContains ds "Manufacturer" then
             (getattrE ds "Manufacturer").map asPyStr
           else Except.ok "") with
    | Except.error e => Except.error e
    | Except.ok manufacturer =>
      match (if pyContains ds "SeriesDescription" then
               (getattrE ds "SeriesDescription").map
                 (fun v => upperStr (asPyStr v))
             else Except.ok "") with
      | Except.error e => Except.error e
      | Except.ok series_desc =>
        let is_survey := strContains series_desc "SURVEY" ||
          strContains series_desc "SURV" || strContains series_desc "SMART" ||
          strContains series_desc "SCOUT" || strContains series_desc "SV"
        let has_projection := image_type.any (fun it => strContains it "PROJECTION")
        let has_derived := image_type.any (fun it => strContains it "DERIVED")
        let has_primary := image_type.any (fun it => strContains it "PRIMARY")
        let has_RCBV := image_type.any (fun it => strContains it "RCBV")
        let has_secondary := image_type.any (fun it => strContains it "SECONDARY")
        let has_adc := image_type.any (fun it => strContains it "ADC")
        Except.ok (!has_primary ||
          !(strContains manufacturer "Philips") ||
          has_projection || has_RCBV || has_derived || has_secondary ||
          has_adc || strContains series_desc "REG" ||
          strContains series_desc "ADC" || is_survey)

/-- has_burned_in_annotation from the source:
dataset.get(flag, empty).upper() compared with YES; a non string
value has no upper method and raises. -/

def has_burned_in_annot (ds : Dataset) : Except PyExc Bool :=
  match pyGetStr ds "BurnedInAnnotation" with
  | none => Except.ok (upperStr "" == "YES")
  | some (DValue.vs s) => Except.ok (upperStr s == "YES")
  | some _ => Except.error PyExc.attributeError

/-- Python str.zfill: left pad with zeros to the width, keeping a
leading sign in front. -/

def zfill (s : String) (w : Nat) : String :=
  let pad := List.replicate (w - s.length) (Char.ofNat 48)
  if s.length ≥ w then s
  else
    match s.data with
    | c :: rest =>
      if c = Char.ofNat 43 ∨ c = Char.ofNat 45 then String.mk (c :: (pad ++ rest))
      else String.mk (pad ++ s.data)
    | [] => String.mk pad

/-- Modelled as the identity: the external pathvalidate normalization
applies after the transformations verified here and is orthogonal to
every claim. -/

def sanitize_filepath (p : String) : String := p

/-- sanitize_series_description from the source: spaces to
underscores, asterisks removed, dots to underscores, then the
filesystem illegal characters removed, then sanitize_filepath. -/

def sanitize_series_description (description : String) : String :=
  let s1 := description.data.map
    (fun c => if c = Char.ofNat 32 then Char.ofNat 95 else c)
  let s2 := s1.filter (fun c => ¬ c = Char.ofNat 42)
  let s3 := s2.map (fun c => if c = Char.ofNat 46 then Char.ofNat 95 else c)
  let invalid := ['<', '>', ':', '"', '/', '\\', '|', '?', '*']
  sanitize_filepath (String.mk (s3.filter (fun c => ¬ invalid.contains c)))

/-- os.path.join for two components. -/

def joinPath (a b : String) : String :=
  if startsWithStr b "/" then b
  else if a = "" then b
  else if endsWithStr a "/" then a ++ b
  else a ++ "/" ++ b

/-- Index of the last dot of a character list, if any. -/

def lastDotIdx (cs : List Char) : Option Nat :=
  (cs.reverse.findIdx? (fun c => c = Char.ofNat 46)).map
    (fun i => cs.length - 1 - i)

/-- os.path.splitext: split at the last dot, except that leading dots
alone never form an extension. -/

def splitext (p : String) : String × String :=
  match lastDotIdx p.data with
  | none => (p, "")
  | some i =>
    if (p.data.take i).all (fun c => c = Char.ofNat 46) then (p, "")
    else (String.mk (p.data.take i), String.mk (p.data.drop i))

/-- generate_unique_filename from the source, with the destination
directory contents given as the list of existing names.  The while
loop of the source tries the counters 1, 2, ... and returns the first
unused name; among the first length + 1 candidates at least one is
unused, so the bounded search below performs exactly the loop (the
final fallback is unreachable). -/

def generate_unique_filename (existing : List String) (filename : String) :
    String :=
  if ¬ existing.contains filename then filename
  else
    let be := splitext filename
    let cands := (List.range (existing.length + 1)).map
      (fun k => be.1 ++ "_" ++ toString (k + 1) ++ be.2)
    match cands.find? (fun c => ¬ existing.contains c) with
    | some c => c
    | none => be.1 ++ "_" ++ toString (existing.length + 2) ++ be.2

/-- Last characters of a string (Python negative slice). -/

def takeRightStr (s : String) (n : Nat) : String :=
  String.mk (s.data.drop (s.length - n))

/-- The non DICOM extension list of copy_dicom_image. -/

def non_dicom_extensions : List String := [".png", ".jpeg", ".jpg", ".gif", ".bmp"]

/-- Whether the lowercased file name ends with a non DICOM extension. -/

def isNonDicomName (name : String) : Bool :=
  non_dicom_extensions.any (fun e => endsWithStr (lowerStr name) e)

instance {α β : Type} [DecidableEq α] [DecidableEq β] :
    DecidableEq (Except α β) := fun a b =>
  match a, b with
  | Except.ok x, Except.ok y =>
    if h : x = y then isTrue (by rw [h])
    else isFalse (by intro he; cases he; exact h rfl)
  | Except.error x, Except.error y =>
    if h : x = y then isTrue (by rw [h])
    else isFalse (by intro he; cases he; exact h rfl)
  | Except.ok _, Except.error _ => isFalse (by intro he; cases he)
  | Except.error _, Except.ok _ => isFalse (by intro he; cases he)

/-- One input file as a work unit: its path, the deterministic result
of reading it (pydicom.dcmread with force, identical for the read in
process_file and the reread in copy_dicom_image), and the 16 random
digits the accession step would draw for it. -/

structure FileJob where
  name : String
  read : Except PyExc Dataset
  randDigits : String
deriving DecidableEq, Repr

/-- The option record threaded from the command line through
copy_directory and process_file to copy_dicom_image. -/

structure RunOpts where
  anonymize : Bool := false
  id_map : Option (List (String × String)) := none
  decompress : Bool := false
  strict_anonymize : Bool := false
  skip_derived : Bool := false
  skip_burned_in : Bool := false
  id_from_name : Bool := false
  anonymize_birth_date : Bool := false
  anonymize_acquisition_date : Bool := false
  preserve_private_tags : Bool := false
  anonymize_accession : Bool := false
deriving DecidableEq, Repr

/-- The anonymization flags carried by the options. -/

def RunOpts.flags (o : RunOpts) : AnonFlags :=
  { strict := o.strict_anonymize,
    id_from_name := o.id_from_name,
    anonymize_birth_date := o.anonymize_birth_date,
    anonymize_acquisition_date := o.anonymize_acquisition_date,
    preserve_private_tags := o.preserve_private_tags,
    anonymize_accession := o.anonymize_accession }

/-- decompress_dataset from the source catches every exception it
raises and returns the dataset; the pixel payload is outside this
model, so the metadata level effect is the identity. -/

def decompress_dataset (ds : Dataset) : Dataset := ds

/-- The write that copy_dicom_image performs: destination directory,
file name and the dataset saved. -/

structure SaveAction where
  dir : String
  file : String
  data : Dataset
deriving DecidableEq, Repr

/-- The anonymize-if-requested part of copy_dicom_image: the source
anonymizes when the anonymize flag is set or the correlation dict is
truthy. -/

def anonPhase (ds : Dataset) (o : RunOpts) (rand : String) :
    Except PyExc Dataset :=
  if o.anonymize || idMapTruthy o.id_map then
    anonymize_dicom_tags ds o.id_map o.flags rand
  else Except.ok ds

/-- copy_dicom_image from the source: files with a non DICOM extension
return without writing; a failed read is caught and returns without
writing; otherwise the dataset is anonymized when requested (an
exception propagates to the caller), optionally decompressed, and the
destination path and the file name, the SOP instance UID with the dcm
suffix, are computed. -/

def copy_dicom_image (job : FileJob) (dest_base_dir pattern0 : String)
    (o : RunOpts) : Except PyExc (Option SaveAction) :=
  if isNonDicomName job.name then Except.ok none
  else
    match job.read with
    | Except.error _ => Except.ok none
    | Except.ok ds0 =>
      match anonPhase ds0 o job.randDigits with
      | Except.error e => Except.error e
      | Except.ok dsA =>
        let ds := if o.decompress then decompress_dataset dsA else dsA
        let series_number := zfill (get_dicom_attribute ds "SeriesNumber") 3
        let series_description :=
          sanitize_series_description (get_dicom_attribute ds "SeriesDescription")
        let series_uid := get_dicom_attribute ds "SeriesInstanceUID"
        let uid_suffix := takeRightStr ((splitOnChar series_uid (Char.ofNat 46)).getLastD "") 5
        let series_dir := series_number ++ "_" ++ series_description ++ "_" ++ uid_suffix
        let study_date0 := get_dicom_attribute ds "StudyDate"
        let study_date :=
          if o.anonymize_acquisition_date && study_date0 ≠ "UNKNOWN" then
            study_date0.take 4 ++ "0101"
          else study_date0
        let p1 := replaceStr pattern0 "%PatientID%" (get_dicom_attribute ds "PatientID")
        let p2 := replaceStr p1 "%StudyDate%" study_date
        let p3 := replaceStr p2 "%SeriesDescription%" series_dir
        let dest_directory := sanitize_filepath (joinPath dest_base_dir p3)
        let sop_instance_uid := get_dicom_attribute ds "SOPInstanceUID"
        Except.ok (some { dir := dest_directory,
                          file := sop_instance_uid ++ ".dcm", data := ds })

/-- process_file from the source: the returned boolean is the success
flag sent back to the pool consumer.  A read failure, a skip decision,
or any exception caught by the handler yields false. -/

def process_file (job : FileJob) (dest_dir pattern0 : String) (o : RunOpts) :
    Bool :=
  match job.read with
  | Except.error _ => false
  | Except.ok ds =>
    match (if o.skip_derived then is_derived_image ds else Except.ok false) with
    | Except.error _ => false
    | Except.ok isDer =>
      if o.skip_derived && isDer then false
      else
        match (if o.skip_burned_in then has_burned_in_annot ds
               else Except.ok false) with
        | Except.error _ => false
        | Except.ok burned =>
          if o.skip_burned_in && burned then false
          else
            match copy_dicom_image job dest_dir pattern0 o with
            | Except.error _ => false
            | Except.ok _ => true

/-- The terminal state of one run of copy_directory.  The source
prints the two counters on completion and returns early without them
on cancellation; they are carried in the cancelled state here as the
loop state at termination so that properties about them can be
stated. -/

inductive RunOutcome where
  | completed (succ fail : Nat)
  | cancelled (succ fail : Nat)
deriving DecidableEq, Repr

/-- The consumption loop of copy_directory: one completion event per
work unit, in completion order; before counting event i the shared
cancellation flag is polled (flag i models its value at that poll) and
a set flag terminates the pool and the loop. -/

def copy_directory_loop (results : List Bool)
    (cancelFlag : Option (Nat → Bool)) (i s f : Nat) : RunOutcome :=
  match results with
  | [] => RunOutcome.completed s f
  | r :: rest =>
    if (match cancelFlag with | none => false | some fl => fl i) then
      RunOutcome.cancelled s f
    else
      copy_directory_loop rest cancelFlag (i + 1)
        (if r then s + 1 else s) (if r then f else f + 1)

/-- copy_directory from the source: enumerate the files, process each
through process_file, and aggregate the per unit success flags into
the success and failure counters, polling the cancellation flag
between completions.  Completion order of the unordered pool is
abstracted as the enumeration order. -/

def copy_directory (jobs : List FileJob) (dest_dir pattern0 : String)
    (o : RunOpts) (cancelFlag : Option (Nat → Bool)) : RunOutcome :=
  copy_directory_loop (jobs.map (fun j => process_file j dest_dir pattern0 o))
    cancelFlag 0 0 0

/-- The fixed path template of sort_dicom. -/

def sortPattern : String := "%PatientID%/%StudyDate%/%SeriesDescription%"

/-- sort_dicom from the source: copy_directory with the fixed
template. -/

def sort_dicom (jobs : List FileJob) (dest_dir : String) (o : RunOpts)
    (cancelFlag : Option (Nat → Bool)) : RunOutcome :=
  copy_directory jobs dest_dir sortPattern o cancelFlag

/-- The positional parameters of sort_dicom that carry no default
value in the source (dicom_sorting_tool.py lines 389 to 391): a call
must bind every one of them, positionally or by keyword, or Python
raises TypeError before the body of sort_dicom runs. -/

def sort_dicom_required_params : List String :=
  ["input_dir", "output_dir", "anonymize", "id_map", "decompress",
   "strict_anonymize", "skip_derived", "skip_burned_in", "id_from_name",
   "anonymize_birth_date", "anonymize_acquisition_date",
   "preserve_private_tags"]

/-- The call in SortingThread.run (GUI_dicom_sorting_tool.py lines 88
to 91) supplies eight positional arguments ... -/

def gui_call_positional_count : Nat := 8

/-- ... and these two keyword arguments. -/

def gui_call_keywords : List String := ["progress_callback", "cancel_flag"]

/-- Python call binding: the supplied positional arguments bind the
leading parameters in order, and every remaining required parameter
must be bound by a keyword argument of its name; otherwise the call
raises TypeError without entering the callee. -/

def pyBindsRequired (required : List String) (npos : Nat)
    (keywords : List String) : Bool :=
  (required.drop npos).all (fun p => keywords.contains p)

/-- The call into sort_dicom exactly as SortingThread.run wires it:
when the arguments bind the required parameters the body runs with
the shared flag, and when a required parameter stays unbound the call
raises TypeError in the caller. -/

def gui_sort_dicom_call (jobs : List FileJob) (dest_dir : String)
    (o : RunOpts) (flag : Nat → Bool) : Except PyExc RunOutcome :=
  if pyBindsRequired sort_dicom_required_params gui_call_positional_count
      gui_call_keywords then
    Except.ok (sort_dicom jobs dest_dir o (some flag))
  else
    Except.error PyExc.typeError

/-- What one run of the sorting thread leaves behind: the run outcome
when the sorting body was entered, and which of the two signals the
thread emitted. -/

structure ThreadResult where
  outcome : Option RunOutcome
  finishedEmitted : Bool
  errorEmitted : Bool
deriving DecidableEq, Repr

/-- SortingThread.run from the GUI source: inside try, call sort_dicom
through gui_sort_dicom_call; on a successful call emit the finished
signal only when the shared flag is still unset (its read after the
run is modelled as its value at index length, sound for the set once
flag the GUI uses), and on an exception emit the error signal
instead. -/

def sorting_thread_run (jobs : List FileJob) (dest_dir : String)
    (o : RunOpts) (flag : Nat → Bool) : ThreadResult :=
  match gui_sort_dicom_call jobs dest_dir o flag with
  | Except.ok out =>
    { outcome := some out, finishedEmitted := !(flag jobs.length),
      errorEmitted := false }
  | Except.error _ =>
    { outcome := none, finishedEmitted := false, errorEmitted := true }

/-!  Lemmas about the association lists and the data dictionary. -/

def manufacturerStr (ds : Dataset) : String :=
  match pyGetattrOpt ds "Manufacturer" with
  | some v => asPyStr v
  | none => ""

/-- The uppercased series description the classifier computes (empty
when the element is absent). -/

def seriesDescUpper (ds : Dataset) : String :=
  match pyGetattrOpt ds "SeriesDescription" with
  | some v => upperStr (asPyStr v)
  | none => ""

def RunOutcome.isCancelled : RunOutcome → Bool
  | RunOutcome.cancelled _ _ => true
  | RunOutcome.completed _ _ => false

/-- The success counter at termination. -/

def RunOutcome.succCount : RunOutcome → Nat
  | RunOutcome.cancelled s _ => s
  | RunOutcome.completed s _ => s

/-- The failure counter at termination. -/

def RunOutcome.failCount : RunOutcome → Nat
  | RunOutcome.cancelled _ f => f
  | RunOutcome.completed _ f => f

theorem alookup_aset_self {α β : Type} [DecidableEq α]
    (l : List (α × β)) (k : α) (v : β) :
    alookup (aset l k v) k = some v := by
  induction l with
  | nil => simp [aset, alookup]
  | cons p rest ih =>
    by_cases hk : p.1 = k
    · simp [aset, alookup, hk]
    · simp [aset, alookup, hk, ih]

theorem alookup_aset_ne {α β : Type} [DecidableEq α]
    (l : List (α × β)) (k k2 : α) (v : β) (hne : k2 ≠ k) :
    alookup (aset l k v) k2 = alookup l k2 := by
  induction l with
  | nil => simp [aset, alookup, Ne.symm hne]
  | cons p rest ih =>
    by_cases hk : p.1 = k
    · simp [aset, alookup, hk, Ne.symm hne, hne]
    · by_cases hk2 : p.1 = k2
      · simp [aset, alookup, hk, hk2, hne]
      · simp [aset, alookup, hk, hk2, ih]

/-- Keys of an association list. -/

theorem akeys_aset {α β : Type} [DecidableEq α]
    (l : List (α × β)) (k : α) (v : β) (a : α) :
    a ∈ akeys (aset l k v) ↔ a ∈ akeys l ∨ a = k := by
  induction l with
  | nil => simp [aset, akeys]
  | cons p rest ih =>
    by_cases hk : p.1 = k
    · subst hk
      simp [aset, akeys]
      tauto
    · simp [aset, akeys, hk] at ih ⊢
      tauto

theorem alookup_eq_none_of_not_mem {α β : Type} [DecidableEq α]
    (l : List (α × β)) (k : α) (h : k ∉ akeys l) :
    alookup l k = none := by
  induction l with
  | nil => rfl
  | cons p rest ih =>
    simp only [akeys, List.map_cons, List.mem_cons, not_or] at h
    have h2 : k ∉ akeys rest := by simpa [akeys] using h.2
    have h1 : ¬ p.1 = k := fun he => h.1 he.symm
    simp [alookup, h1, ih h2]

/-- The subset of the pydicom DICOM data dictionary (keyword to numeric
tag, tag = group * 65536 + element) used by the modelled program.
Modelled from the pydicom library data dictionary. -/

theorem alookup_mem {α β : Type} [DecidableEq α]
    (l : List (α × β)) (k : α) (v : β) (h : alookup l k = some v) :
    (k, v) ∈ l := by
  induction l with
  | nil => simp [alookup] at h
  | cons p rest ih =>
    by_cases hk : p.1 = k
    · simp only [alookup, hk, if_pos] at h
      cases h
      have hp : p = (k, p.2) := by
        cases p
        simp only at hk
        rw [hk]
      rw [← hp]
      exact List.mem_cons_self p rest
    · simp only [alookup, hk, if_neg, if_false] at h
      exact List.mem_cons_of_mem p (ih h)

theorem alookup_isSome_of_mem {α β : Type} [DecidableEq α]
    (l : List (α × β)) (k : α) (v : β) (h : (k, v) ∈ l) :
    (alookup l k).isSome := by
  induction l with
  | nil => simp at h
  | cons p rest ih =>
    by_cases hk : p.1 = k
    · simp [alookup, hk]
    · rcases List.mem_cons.1 h with h1 | h2
      · exact absurd (congrArg Prod.fst h1.symm) hk
      · simpa [alookup, hk] using ih h2

theorem alookup_of_mem_nodup {α β : Type} [DecidableEq α]
    (l : List (α × β)) (k : α) (v : β) (h : (k, v) ∈ l)
    (hnd : (akeys l).Nodup) : alookup l k = some v := by
  induction l with
  | nil => simp at h
  | cons p rest ih =>
    simp only [akeys, List.map_cons, List.nodup_cons] at hnd
    rcases List.mem_cons.1 h with h1 | h2
    · subst h1
      simp [alookup]
    · have hk : ¬ p.1 = k := by
        intro he
        exact hnd.1 (by
          rw [he]
          exact List.mem_map_of_mem Prod.fst h2)
      have : (akeys rest).Nodup := hnd.2
      simp [alookup, hk, ih h2 this]

/-- The keys of the modelled data dictionary are distinct. -/

theorem dicomDict_keys_nodup : (akeys dicomDict).Nodup := by decide

/-- Each data dictionary tag determines the keyword mapping to it. -/

theorem tfk_unique (t : Nat) (kwu : String)
    (hu : ∀ p ∈ dicomDict, p.2 = t → p.1 = kwu) (kw : String)
    (h : tag_for_keyword kw = some t) : kw = kwu := by
  have hm := alookup_mem dicomDict kw t h
  exact hu (kw, t) hm rfl

/-- keyword_for_tag and tag_for_keyword agree. -/

theorem tfk_of_kft (t : Nat) (kw : String)
    (h : keyword_for_tag t = some kw) : tag_for_keyword kw = some t := by
  unfold keyword_for_tag at h
  cases hf : dicomDict.find? (fun p => p.2 = t) with
  | none => rw [hf] at h; simp at h
  | some p =>
    rw [hf] at h
    simp at h
    have hmem := List.mem_of_find?_eq_some hf
    have hpred := List.find?_some hf
    simp at hpred
    have : p = (kw, t) := by
      cases p
      simp at h hpred
      simp [h, hpred]
    rw [this] at hmem
    exact alookup_of_mem_nodup dicomDict kw t hmem dicomDict_keys_nodup

/-!  Lemmas about setattrPy. -/

theorem setattrPy_lookup_same (ds : Dataset) (name : String) (v : DValue)
    (t : Nat) (h : tag_for_keyword name = some t) :
    lookupTag (setattrPy ds name v) t = some v := by
  unfold setattrPy lookupTag
  rw [h]
  exact alookup_aset_self ds.elems t v

theorem setattrPy_lookup_ne (ds : Dataset) (name : String) (v : DValue)
    (t : Nat) (h : tag_for_keyword name ≠ some t) :
    lookupTag (setattrPy ds name v) t = lookupTag ds t := by
  unfold setattrPy lookupTag
  cases hk : tag_for_keyword name with
  | none => rfl
  | some t2 =>
    have hne : t ≠ t2 := by
      intro he
      exact h (by rw [hk, he])
    exact alookup_aset_ne ds.elems t2 t v hne

theorem setattrPy_attrs_of_kw (ds : Dataset) (name : String) (v : DValue)
    (h : (tag_for_keyword name).isSome) :
    (setattrPy ds name v).attrs = ds.attrs := by
  unfold setattrPy
  cases hk : tag_for_keyword name with
  | none => rw [hk] at h; simp at h
  | some t => rfl

theorem setattrPy_elems_of_not_kw (ds : Dataset) (name : String) (v : DValue)
    (h : tag_for_keyword name = none) :
    (setattrPy ds name v).elems = ds.elems := by
  unfold setattrPy
  rw [h]

/-!  Lemmas about the anonymization stage functions. -/

theorem dateFieldStep_lookup_ne (ds ds2 : Dataset) (field : String)
    (enabled : Bool) (t : Nat)
    (h : dateFieldStep ds field enabled = Except.ok ds2)
    (hne : tag_for_keyword field ≠ some t) :
    lookupTag ds2 t = lookupTag ds t := by
  unfold dateFieldStep at h
  by_cases hc : pyContains ds field ∧ enabled = true
  · simp only [hc, if_pos, and_true] at h
    cases hg : pyGetattrOpt ds field with
    | none => rw [hg] at h; simp at h
    | some v =>
      cases hd : genDummyDateE v true with
      | error e => simp only [hg, hd] at h; cases h
      | ok s =>
        simp only [hg, hd] at h
        cases h
        exact setattrPy_lookup_ne ds field (DValue.vs s) t hne
  · have : ¬ (pyContains ds field = true ∧ enabled = true) := hc
    simp only [this, if_neg, if_false] at h
    cases h
    rfl

theorem dateFieldStep_attrs (ds ds2 : Dataset) (field : String)
    (enabled : Bool) (h : dateFieldStep ds field enabled = Except.ok ds2)
    (hkw : (tag_for_keyword field).isSome) : ds2.attrs = ds.attrs := by
  unfold dateFieldStep at h
  by_cases hc : pyContains ds field ∧ enabled = true
  · simp only [hc, if_pos, and_true] at h
    cases hg : pyGetattrOpt ds field with
    | none => rw [hg] at h; simp at h
    | some v =>
      cases hd : genDummyDateE v true with
      | error e => simp only [hg, hd] at h; cases h
      | ok s =>
        simp only [hg, hd] at h
        cases h
        exact setattrPy_attrs_of_kw ds field (DValue.vs s) hkw
  · have : ¬ (pyContains ds field = true ∧ enabled = true) := hc
    simp only [this, if_neg, if_false] at h
    cases h
    rfl

theorem accessionStep_lookup_ne (ds : Dataset) (enabled : Bool)
    (r : String) (t : Nat)
    (hne : tag_for_keyword "AccessionNumber" ≠ some t) :
    lookupTag (accessionStep ds enabled r) t = lookupTag ds t := by
  unfold accessionStep
  by_cases hc : enabled = true ∧ pyContains ds "00080050" = true
  · simp only [hc, if_pos, and_true]
    exact setattrPy_lookup_ne ds "AccessionNumber" (DValue.vs r) t hne
  · simp only [hc, if_neg, if_false]

theorem accessionStep_attrs (ds : Dataset) (enabled : Bool) (r : String) :
    (accessionStep ds enabled r).attrs = ds.attrs := by
  unfold accessionStep
  by_cases hc : enabled = true ∧ pyContains ds "00080050" = true
  · simp only [hc, if_pos, and_true]
    exact setattrPy_attrs_of_kw ds "AccessionNumber" (DValue.vs r) (by decide)
  · simp only [hc, if_neg, if_false]

theorem removePrivate_lookup_even (ds : Dataset) (t : Nat)
    (h : t / 65536 % 2 = 0) :
    lookupTag (removePrivate ds) t = lookupTag ds t := by
  unfold removePrivate lookupTag
  simp only
  induction ds.elems with
  | nil => rfl
  | cons p rest ih =>
    by_cases hk : p.1 = t
    · subst hk
      simp [alookup, List.filter, h]
    · by_cases hp : p.1 / 65536 % 2 = 0
      · simp [alookup, List.filter, hp, hk, ih]
      · simp only [List.filter]
        have : (decide (p.1 / 65536 % 2 = 0)) = false := by
          simpa using hp
        rw [this]
        simp only [alookup, hk, if_neg, if_false] at ih ⊢
        exact ih

theorem removePrivate_attrs (ds : Dataset) :
    (removePrivate ds).attrs = ds.attrs := rfl

theorem strictStep_ok_cases (d d2 : Dataset) (kw : String)
    (h : strictStep d kw = Except.ok d2) :
    d2 = d ∨ ∃ v, d2 = setattrPy d kw v := by
  unfold strictStep at h
  cases hv : strictNewVal d kw with
  | error e => rw [hv] at h; simp at h
  | ok o =>
    rw [hv] at h
    cases o with
    | none => cases h; exact Or.inl rfl
    | some v => cases h; exact Or.inr ⟨v, rfl⟩

theorem strictStep_lookup_ne (d d2 : Dataset) (kw : String) (t : Nat)
    (h : strictStep d kw = Except.ok d2)
    (hne : tag_for_keyword kw ≠ some t) :
    lookupTag d2 t = lookupTag d t := by
  rcases strictStep_ok_cases d d2 kw h with h1 | ⟨v, h2⟩
  · rw [h1]
  · rw [h2]
    exact setattrPy_lookup_ne d kw v t hne

theorem strictStep_attrs (d d2 : Dataset) (kw : String)
    (h : strictStep d kw = Except.ok d2)
    (hkw : (tag_for_keyword kw).isSome) : d2.attrs = d.attrs := by
  rcases strictStep_ok_cases d d2 kw h with h1 | ⟨v, h2⟩
  · rw [h1]
  · rw [h2]
    exact setattrPy_attrs_of_kw d kw v hkw

theorem strictStep_patientID (d : Dataset) :
    strictStep d "PatientID" = Except.ok d := by
  have h1 : "PatientID" ∉ preserved_tags := by decide
  have h2 : startsWithStr "PatientID" "Patient" = true := by decide
  simp [strictStep, strictNewVal, h1, h2]

theorem strictStep_patientName (d : Dataset) :
    strictStep d "PatientName" = Except.ok d := by
  have h1 : "PatientName" ∉ preserved_tags := by decide
  have h2 : startsWithStr "PatientName" "Patient" = true := by decide
  simp [strictStep, strictNewVal, h1, h2]

theorem strictStep_patientBirthDate (d : Dataset) :
    strictStep d "PatientBirthDate" = Except.ok d := by
  have h1 : "PatientBirthDate" ∉ preserved_tags := by decide
  have h2 : startsWithStr "PatientBirthDate" "Patient" = true := by decide
  simp [strictStep, strictNewVal, h1, h2]

theorem strictStep_sop (d : Dataset) (u : String)
    (ha : d.attrs = [])
    (hv : lookupTag d 0x00080018 = some (DValue.vs u)) :
    strictStep d "SOPInstanceUID" =
      Except.ok (setattrPy d "SOPInstanceUID"
        (DValue.vs (generate_dummy_uid u))) := by
  have h1 : "SOPInstanceUID" ∉ preserved_tags := by decide
  have h2 : startsWithStr "SOPInstanceUID" "Patient" = false := by decide
  have h3 : endsWithStr "SOPInstanceUID" "UID" = true := by decide
  have h4 : "SOPInstanceUID" ∉ preserved_uids := by decide
  have hg : getattrE d "SOPInstanceUID" = Except.ok (DValue.vs u) := by
    unfold getattrE pyGetattrOpt
    rw [ha]
    have ht : tag_for_keyword "SOPInstanceUID" = some 0x00080018 := by decide
    simp only [alookup, ht, hv]
  simp [strictStep, strictNewVal, h1, h2, h3, h4, hg, genDummyUidE]

/-!  Lemmas about the strict loop fold. -/

theorem foldlM_strict_cons (kw : String) (rest : List String)
    (d d2 : Dataset)
    (h : (kw :: rest).foldlM strictStep d = Except.ok d2) :
    ∃ d1, strictStep d kw = Except.ok d1 ∧
      rest.foldlM strictStep d1 = Except.ok d2 := by
  cases hs : strictStep d kw with
  | error e =>
    simp only [List.foldlM, hs] at h
    cases h
  | ok d1 =>
    refine ⟨d1, rfl, ?_⟩
    simpa only [List.foldlM, hs] using h

theorem foldlM_strict_lookup (kws : List String) (d d2 : Dataset) (t : Nat)
    (h : kws.foldlM strictStep d = Except.ok d2)
    (hstep : ∀ kw ∈ kws, ∀ d3 d4 : Dataset,
      strictStep d3 kw = Except.ok d4 → lookupTag d4 t = lookupTag d3 t) :
    lookupTag d2 t = lookupTag d t := by
  induction kws generalizing d with
  | nil => simp only [List.foldlM] at h; cases h; rfl
  | cons kw rest ih =>
    rcases foldlM_strict_cons kw rest d d2 h with ⟨d1, h1, h2⟩
    have e1 := hstep kw (List.mem_cons_self kw rest) d d1 h1
    have e2 := ih d1 h2
      (fun k hk d3 d4 hd => hstep k (List.mem_cons_of_mem kw hk) d3 d4 hd)
    rw [e2, e1]

theorem foldlM_strict_attrs (kws : List String) (d d2 : Dataset)
    (h : kws.foldlM strictStep d = Except.ok d2)
    (hkw : ∀ kw ∈ kws, (tag_for_keyword kw).isSome) :
    d2.attrs = d.attrs := by
  induction kws generalizing d with
  | nil => simp only [List.foldlM] at h; cases h; rfl
  | cons kw rest ih =>
    rcases foldlM_strict_cons kw rest d d2 h with ⟨d1, h1, h2⟩
    have e1 := strictStep_attrs d d1 kw h1 (hkw kw (List.mem_cons_self kw rest))
    have e2 := ih d1 h2 (fun k hk => hkw k (List.mem_cons_of_mem kw hk))
    rw [e2, e1]

theorem foldlM_strict_sop (kws : List String) (d d2 : Dataset) (u : String)
    (h : kws.foldlM strictStep d = Except.ok d2)
    (hmem : "SOPInstanceUID" ∈ kws)
    (hnd : kws.Nodup)
    (ha : d.attrs = [])
    (hkw : ∀ kw ∈ kws, (tag_for_keyword kw).isSome)
    (hv : lookupTag d 0x00080018 = some (DValue.vs u)) :
    lookupTag d2 0x00080018 = some (DValue.vs (generate_dummy_uid u)) := by
  induction kws generalizing d with
  | nil => simp at hmem
  | cons kw rest ih =>
    rcases foldlM_strict_cons kw rest d d2 h with ⟨d1, h1, h2⟩
    by_cases hsop : kw = "SOPInstanceUID"
    · subst hsop
      have hstep := strictStep_sop d u ha hv
      rw [hstep] at h1
      cases h1
      have hnotin : "SOPInstanceUID" ∉ rest := (List.nodup_cons.1 hnd).1
      have hafter : lookupTag (setattrPy d "SOPInstanceUID"
          (DValue.vs (generate_dummy_uid u))) 0x00080018 =
          some (DValue.vs (generate_dummy_uid u)) :=
        setattrPy_lookup_same d "SOPInstanceUID" _ 0x00080018 (by decide)
      have hframe := foldlM_strict_lookup rest _ d2 0x00080018 h2
        (fun k hk d3 d4 hd => by
          have hne : tag_for_keyword k ≠ some 0x00080018 := by
            intro he
            have : k = "SOPInstanceUID" :=
              tfk_unique 0x00080018 "SOPInstanceUID" (by decide) k he
            exact hnotin (this ▸ hk)
          exact strictStep_lookup_ne d3 d4 k 0x00080018 hd hne)
      rw [hframe, hafter]
    · have hne : tag_for_keyword kw ≠ some 0x00080018 := by
        intro he
        exact hsop (tfk_unique 0x00080018 "SOPInstanceUID" (by decide) kw he)
      have e1 := strictStep_lookup_ne d d1 kw 0x00080018 h1 hne
      have ha1 : d1.attrs = [] := by
        rw [strictStep_attrs d d1 kw h1
          (hkw kw (List.mem_cons_self kw rest)), ha]
      have hmem1 : "SOPInstanceUID" ∈ rest := by
        rcases List.mem_cons.1 hmem with h' | h'
        · exact absurd h'.symm hsop
        · exact h'
      exact ih d1 h2 hmem1 (List.nodup_cons.1 hnd).2 ha1
        (fun k hk => hkw k (List.mem_cons_of_mem kw hk)) (e1 ▸ hv)

/-!  Lemmas about pyDir. -/

theorem insertSorted_perm (x : String) (l : List String) :
    (insertSorted x l).Perm (x :: l) := by
  induction l with
  | nil => simp [insertSorted]
  | cons y t ih =>
    unfold insertSorted
    by_cases hb : strLeB x y
    · simp [hb]
    · simp only [hb, if_neg, Bool.false_eq_true, if_false]
      exact List.Perm.trans (List.Perm.cons y ih) (List.Perm.swap x y t)

theorem sortStrings_perm (l : List String) : (sortStrings l).Perm l := by
  induction l with
  | nil => simp [sortStrings]
  | cons x t ih =>
    unfold sortStrings
    exact List.Perm.trans (insertSorted_perm x (sortStrings t))
      (List.Perm.cons x ih)

theorem pyDir_nodup (ds : Dataset) : (pyDir ds).Nodup := by
  unfold pyDir
  exact (List.Perm.nodup_iff (sortStrings_perm _)).2 (List.nodup_dedup _)

theorem pyDir_mem_iff (ds : Dataset) (kw : String) :
    kw ∈ pyDir ds ↔
      ∃ p ∈ ds.elems, keyword_for_tag p.1 = some kw := by
  unfold pyDir
  rw [List.Perm.mem_iff (sortStrings_perm _), List.mem_dedup,
    List.mem_filterMap]

theorem pyDir_kw_isSome (ds : Dataset) (kw : String) (h : kw ∈ pyDir ds) :
    (tag_for_keyword kw).isSome := by
  rcases (pyDir_mem_iff ds kw).1 h with ⟨p, _, hp⟩
  rw [tfk_of_kft p.1 kw hp]
  rfl

theorem pyDir_mem_of_lookup (ds : Dataset) (t : Nat) (v : DValue)
    (kw : String) (hl : lookupTag ds t = some v)
    (hk : keyword_for_tag t = some kw) : kw ∈ pyDir ds := by
  rw [pyDir_mem_iff]
  exact ⟨(t, v), alookup_mem ds.elems t v hl, hk⟩

/-!  Lemmas about the snapshot and restore phases. -/

theorem snapshot_keys (ds : Dataset) (p : String × Option DValue)
    (h : p ∈ snapshotPreserved ds) : p.1 ∈ preserved_tags := by
  unfold snapshotPreserved at h
  rcases List.mem_filterMap.1 h with ⟨a, ha, hp⟩
  by_cases hc : pyContains ds a
  · simp only [hc, if_pos] at hp
    cases hp
    exact ha
  · simp only [hc, if_neg, Bool.false_eq_true, if_false] at hp
    cases hp

theorem preserved_tags_not_kw :
    ∀ s ∈ preserved_tags, tag_for_keyword s = none := by decide

theorem restorePreserved_elems (pv : List (String × Option DValue))
    (ds : Dataset) (hkw : ∀ p ∈ pv, tag_for_keyword p.1 = none) :
    (restorePreserved pv ds).elems = ds.elems := by
  induction pv generalizing ds with
  | nil => rfl
  | cons p rest ih =>
    unfold restorePreserved
    simp only [List.foldl_cons]
    have h1 : (setattrPy ds p.1 (match p.2 with
        | some v => v
        | none => DValue.vnone)).elems = ds.elems :=
      setattrPy_elems_of_not_kw ds p.1 _ (hkw p (List.mem_cons_self p rest))
    have := ih (setattrPy ds p.1 (match p.2 with
        | some v => v
        | none => DValue.vnone))
      (fun q hq => hkw q (List.mem_cons_of_mem p hq))
    unfold restorePreserved at this
    rw [this, h1]

theorem restorePreserved_attrs_lookup (pv : List (String × Option DValue))
    (ds : Dataset) (name : String) (hne : ∀ p ∈ pv, p.1 ≠ name) :
    alookup (restorePreserved pv ds).attrs name = alookup ds.attrs name := by
  induction pv generalizing ds with
  | nil => rfl
  | cons p rest ih =>
    unfold restorePreserved
    simp only [List.foldl_cons]
    have hstep : alookup (setattrPy ds p.1 (match p.2 with
        | some v => v
        | none => DValue.vnone)).attrs name = alookup ds.attrs name := by
      unfold setattrPy
      cases hk : tag_for_keyword p.1 with
      | some t => rfl
      | none =>
        simp only
        exact alookup_aset_ne ds.attrs p.1 name _
          (fun he => (hne p (List.mem_cons_self p rest)) he.symm)
    have := ih (setattrPy ds p.1 (match p.2 with
        | some v => v
        | none => DValue.vnone))
      (fun q hq => hne q (List.mem_cons_of_mem p hq))
    unfold restorePreserved at this
    rw [this, hstep]

/-!  Decomposition of a successful anonymize_dicom_tags run. -/

theorem anonymize_ok_decomp (ds : Dataset)
    (id_map : Option (List (String × String))) (fl : AnonFlags) (r : String)
    (d2 : Dataset) (h : anonymize_dicom_tags ds id_map fl r = Except.ok d2) :
    ∃ orig new_id ds2 ds3 ds5,
      resolveOriginalId ds fl.id_from_name = Except.ok orig ∧
      resolveNewId id_map orig = Except.ok new_id ∧
      dateFieldStep (setattrPy (setattrPy ds "PatientID" (DValue.vs new_id))
          "PatientName" (DValue.vs new_id)) "PatientBirthDate"
          fl.anonymize_birth_date = Except.ok ds2 ∧
      dateFieldStep ds2 "AcquisitionDate" fl.anonymize_acquisition_date =
        Except.ok ds3 ∧
      strictPhase (accessionStep ds3 fl.anonymize_accession r) fl =
        Except.ok ds5 ∧
      d2 = restorePreserved (snapshotPreserved ds) ds5 := by
  unfold anonymize_dicom_tags at h
  cases h1 : resolveOriginalId ds fl.id_from_name with
  | error e => simp only [h1] at h; cases h
  | ok orig =>
    simp only [h1] at h
    cases h2 : resolveNewId id_map orig with
    | error e => simp only [h2] at h; cases h
    | ok new_id =>
      simp only [h2] at h
      cases h3 : dateFieldStep (setattrPy (setattrPy ds "PatientID"
          (DValue.vs new_id)) "PatientName" (DValue.vs new_id))
          "PatientBirthDate" fl.anonymize_birth_date with
      | error e => simp only [h3] at h; cases h
      | ok ds2 =>
        simp only [h3] at h
        cases h4 : dateFieldStep ds2 "AcquisitionDate"
            fl.anonymize_acquisition_date with
        | error e => simp only [h4] at h; cases h
        | ok ds3 =>
          simp only [h4] at h
          cases h5 : strictPhase (accessionStep ds3 fl.anonymize_accession r)
              fl with
          | error e => simp only [h5] at h; cases h
          | ok ds5 =>
            simp only [h5] at h
            cases h
            exact ⟨orig, new_id, ds2, ds3, ds5, rfl, h2, h3, h4, h5, rfl⟩

/-- The stages after the acquisition date step preserve the value of a
tag that none of them assigns: the accession tag differs, the tag has
an even group so private removal keeps it, and every dir keyword
mapping to the tag steps without modification. -/

theorem stages_preserve_from3 (ds3 ds5 : Dataset) (fl : AnonFlags)
    (r : String) (t : Nat)
    (h5 : strictPhase (accessionStep ds3 fl.anonymize_accession r) fl =
      Except.ok ds5)
    (hne3 : tag_for_keyword "AccessionNumber" ≠ some t)
    (heven : t / 65536 % 2 = 0)
    (hid : ∀ kw, tag_for_keyword kw = some t →
      ∀ d : Dataset, strictStep d kw = Except.ok d) :
    lookupTag ds5 t = lookupTag ds3 t := by
  have hacc : lookupTag (accessionStep ds3 fl.anonymize_accession r) t =
      lookupTag ds3 t :=
    accessionStep_lookup_ne ds3 fl.anonymize_accession r t hne3
  unfold strictPhase at h5
  cases hs : fl.strict with
  | false =>
    rw [hs] at h5
    simp only [Bool.false_eq_true, if_false] at h5
    cases h5
    exact hacc
  | true =>
    rw [hs] at h5
    simp only [if_true] at h5
    set ds4 := accessionStep ds3 fl.anonymize_accession r with hds4
    set ds4r := if ¬ fl.preserve_private_tags then removePrivate ds4
      else ds4 with hds4r
    have h4r : lookupTag ds4r t = lookupTag ds4 t := by
      rw [hds4r]
      by_cases hp : fl.preserve_private_tags = true
      · simp [hp]
      · simp only [Bool.not_eq_true] at hp
        simp [hp, removePrivate_lookup_even ds4 t heven]
    have hfold := foldlM_strict_lookup (pyDir ds4r) ds4r ds5 t h5
      (fun kw _ d3 d4 hd => by
        by_cases hkt : tag_for_keyword kw = some t
        · rw [hid kw hkt d3] at hd
          cases hd
          rfl
        · exact strictStep_lookup_ne d3 d4 kw t hd hkt)
    rw [hfold, h4r, hacc]

/-- Variant starting after the birth date step. -/

theorem stages_preserve_from2 (ds2 ds3 ds5 : Dataset) (fl : AnonFlags)
    (r : String) (t : Nat)
    (h4 : dateFieldStep ds2 "AcquisitionDate" fl.anonymize_acquisition_date =
      Except.ok ds3)
    (h5 : strictPhase (accessionStep ds3 fl.anonymize_accession r) fl =
      Except.ok ds5)
    (hne2 : tag_for_keyword "AcquisitionDate" ≠ some t)
    (hne3 : tag_for_keyword "AccessionNumber" ≠ some t)
    (heven : t / 65536 % 2 = 0)
    (hid : ∀ kw, tag_for_keyword kw = some t →
      ∀ d : Dataset, strictStep d kw = Except.ok d) :
    lookupTag ds5 t = lookupTag ds2 t := by
  rw [stages_preserve_from3 ds3 ds5 fl r t h5 hne3 heven hid]
  exact dateFieldStep_lookup_ne ds2 ds3 "AcquisitionDate"
    fl.anonymize_acquisition_date t h4 hne2

/-- The instance attributes stay empty through the stages up to the
strict phase result. -/

theorem stages_attrs (ds1 ds2 ds3 ds5 : Dataset) (fl : AnonFlags)
    (r : String)
    (h3 : dateFieldStep ds1 "PatientBirthDate" fl.anonymize_birth_date =
      Except.ok ds2)
    (h4 : dateFieldStep ds2 "AcquisitionDate" fl.anonymize_acquisition_date =
      Except.ok ds3)
    (h5 : strictPhase (accessionStep ds3 fl.anonymize_accession r) fl =
      Except.ok ds5)
    (ha : ds1.attrs = []) : ds5.attrs = [] := by
  have a2 : ds2.attrs = [] := by
    rw [dateFieldStep_attrs ds1 ds2 "PatientBirthDate"
      fl.anonymize_birth_date h3 (by decide), ha]
  have a3 : ds3.attrs = [] := by
    rw [dateFieldStep_attrs ds2 ds3 "AcquisitionDate"
      fl.anonymize_acquisition_date h4 (by decide), a2]
  have a4 : (accessionStep ds3 fl.anonymize_accession r).attrs = [] := by
    rw [accessionStep_attrs, a3]
  unfold strictPhase at h5
  cases hs : fl.strict with
  | false =>
    rw [hs] at h5
    simp only [Bool.false_eq_true, if_false] at h5
    cases h5
    exact a4
  | true =>
    rw [hs] at h5
    simp only [if_true] at h5
    set ds4 := accessionStep ds3 fl.anonymize_accession r with hds4
    set ds4r := if ¬ fl.preserve_private_tags then removePrivate ds4
      else ds4 with hds4r
    have a4r : ds4r.attrs = [] := by
      rw [hds4r]
      by_cases hp : fl.preserve_private_tags = true
      · simp [hp, a4]
      · simp only [Bool.not_eq_true] at hp
        simp [hp, removePrivate_attrs, a4]
    rw [foldlM_strict_attrs (pyDir ds4r) ds4r ds5 h5
      (fun kw hk => pyDir_kw_isSome ds4r kw hk), a4r]

/-- Attribute read on the restored dataset for a standard keyword that
the snapshot cannot shadow. -/

theorem pyGetattrOpt_restored (ds5 : Dataset)
    (pv : List (String × Option DValue)) (name : String) (t : Nat)
    (ha : ds5.attrs = [])
    (hkeys : ∀ p ∈ pv, p.1 ∈ preserved_tags)
    (hname : ∀ s ∈ preserved_tags, s ≠ name)
    (ht : tag_for_keyword name = some t) :
    pyGetattrOpt (restorePreserved pv ds5) name = lookupTag ds5 t := by
  have h1 : alookup (restorePreserved pv ds5).attrs name = none := by
    rw [restorePreserved_attrs_lookup pv ds5 name
      (fun p hp => hname p.1 (hkeys p hp)), ha]
    rfl
  have h2 : (restorePreserved pv ds5).elems = ds5.elems :=
    restorePreserved_elems pv ds5
      (fun p hp => preserved_tags_not_kw p.1 (hkeys p hp))
  unfold pyGetattrOpt
  rw [h1, ht]
  unfold lookupTag
  rw [h2]

/-!  Main tracking lemmas for anonymize_dicom_tags. -/

theorem anonymize_ok_ids (ds : Dataset)
    (id_map : Option (List (String × String))) (fl : AnonFlags) (r : String)
    (d2 : Dataset) (ha : ds.attrs = [])
    (h : anonymize_dicom_tags ds id_map fl r = Except.ok d2) :
    ∃ orig new_id,
      resolveOriginalId ds fl.id_from_name = Except.ok orig ∧
      resolveNewId id_map orig = Except.ok new_id ∧
      pyGetattrOpt d2 "PatientID" = some (DValue.vs new_id) ∧
      pyGetattrOpt d2 "PatientName" = some (DValue.vs new_id) := by
  rcases anonymize_ok_decomp ds id_map fl r d2 h with
    ⟨orig, new_id, ds2, ds3, ds5, h1, h2, h3, h4, h5, hrest⟩
  set ds1 := setattrPy (setattrPy ds "PatientID" (DValue.vs new_id))
    "PatientName" (DValue.vs new_id) with hds1
  have ha1 : ds1.attrs = [] := by
    rw [hds1, setattrPy_attrs_of_kw _ _ _ (by decide),
      setattrPy_attrs_of_kw _ _ _ (by decide), ha]
  have ha5 : ds5.attrs = [] := stages_attrs ds1 ds2 ds3 ds5 fl r h3 h4 h5 ha1
  have hv1pid : lookupTag ds1 0x00100020 = some (DValue.vs new_id) := by
    rw [hds1, setattrPy_lookup_ne _ _ _ _ (by decide)]
    exact setattrPy_lookup_same _ _ _ _ (by decide)
  have hv1pn : lookupTag ds1 0x00100010 = some (DValue.vs new_id) :=
    setattrPy_lookup_same _ _ _ _ (by decide)
  have hpid5 : lookupTag ds5 0x00100020 = some (DValue.vs new_id) := by
    have hstep := stages_preserve_from2 ds2 ds3 ds5 fl r 0x00100020 h4 h5
      (by decide) (by decide) (by decide)
      (fun kw hkw d => by
        rw [tfk_unique 0x00100020 "PatientID" (by decide) kw hkw]
        exact strictStep_patientID d)
    have hbirth := dateFieldStep_lookup_ne ds1 ds2 "PatientBirthDate"
      fl.anonymize_birth_date 0x00100020 h3 (by decide)
    rw [hstep, hbirth, hv1pid]
  have hpn5 : lookupTag ds5 0x00100010 = some (DValue.vs new_id) := by
    have hstep := stages_preserve_from2 ds2 ds3 ds5 fl r 0x00100010 h4 h5
      (by decide) (by decide) (by decide)
      (fun kw hkw d => by
        rw [tfk_unique 0x00100010 "PatientName" (by decide) kw hkw]
        exact strictStep_patientName d)
    have hbirth := dateFieldStep_lookup_ne ds1 ds2 "PatientBirthDate"
      fl.anonymize_birth_date 0x00100010 h3 (by decide)
    rw [hstep, hbirth, hv1pn]
  refine ⟨orig, new_id, h1, h2, ?_, ?_⟩
  · rw [hrest, pyGetattrOpt_restored ds5 (snapshotPreserved ds) "PatientID"
      0x00100020 ha5 (fun p hp => snapshot_keys ds p hp) (by decide)
      (by decide), hpid5]
  · rw [hrest, pyGetattrOpt_restored ds5 (snapshotPreserved ds) "PatientName"
      0x00100010 ha5 (fun p hp => snapshot_keys ds p hp) (by decide)
      (by decide), hpn5]

theorem pyContains_kw_eq (ds : Dataset) (s : String) (t : Nat)
    (hhex : hexParse s = none) (ht : tag_for_keyword s = some t) :
    pyContains ds s = (lookupTag ds t).isSome := by
  unfold pyContains
  rw [hhex, ht]

theorem dateFieldStep_skip (ds : Dataset) (field : String) (enabled : Bool)
    (h : pyContains ds field = false) :
    dateFieldStep ds field enabled = Except.ok ds := by
  unfold dateFieldStep
  simp [h]

theorem dateFieldStep_present (ds : Dataset) (field : String) (tf : Nat)
    (b : String) (hhex : hexParse field = none)
    (htf : tag_for_keyword field = some tf)
    (ha : alookup ds.attrs field = none)
    (hv : lookupTag ds tf = some (DValue.vs b)) :
    dateFieldStep ds field true =
      Except.ok (setattrPy ds field
        (DValue.vs (generate_dummy_date b true))) := by
  have hc : pyContains ds field = true := by
    rw [pyContains_kw_eq ds field tf hhex htf, hv]
    rfl
  have hg : pyGetattrOpt ds field = some (DValue.vs b) := by
    unfold pyGetattrOpt
    rw [ha, htf]
    exact hv
  unfold dateFieldStep
  simp only [hc, true_and, if_pos, hg, genDummyDateE]

theorem anonymize_strict_sop (ds : Dataset)
    (id_map : Option (List (String × String))) (fl : AnonFlags) (r : String)
    (d2 : Dataset) (u : String) (ha : ds.attrs = [])
    (hstrict : fl.strict = true)
    (hu : lookupTag ds 0x00080018 = some (DValue.vs u))
    (h : anonymize_dicom_tags ds id_map fl r = Except.ok d2) :
    pyGetattrOpt d2 "SOPInstanceUID" =
      some (DValue.vs (generate_dummy_uid u)) := by
  rcases anonymize_ok_decomp ds id_map fl r d2 h with
    ⟨orig, new_id, ds2, ds3, ds5, h1, h2, h3, h4, h5, hrest⟩
  set ds1 := setattrPy (setattrPy ds "PatientID" (DValue.vs new_id))
    "PatientName" (DValue.vs new_id) with hds1
  have ha1 : ds1.attrs = [] := by
    rw [hds1, setattrPy_attrs_of_kw _ _ _ (by decide),
      setattrPy_attrs_of_kw _ _ _ (by decide), ha]
  have ha5 : ds5.attrs = [] := stages_attrs ds1 ds2 ds3 ds5 fl r h3 h4 h5 ha1
  have hv1 : lookupTag ds1 0x00080018 = some (DValue.vs u) := by
    rw [hds1, setattrPy_lookup_ne _ _ _ _ (by decide),
      setattrPy_lookup_ne _ _ _ _ (by decide)]
    exact hu
  have hv2 : lookupTag ds2 0x00080018 = some (DValue.vs u) := by
    rw [dateFieldStep_lookup_ne ds1 ds2 "PatientBirthDate"
      fl.anonymize_birth_date 0x00080018 h3 (by decide)]
    exact hv1
  have hv3 : lookupTag ds3 0x00080018 = some (DValue.vs u) := by
    rw [dateFieldStep_lookup_ne ds2 ds3 "AcquisitionDate"
      fl.anonymize_acquisition_date 0x00080018 h4 (by decide)]
    exact hv2
  set ds4 := accessionStep ds3 fl.anonymize_accession r with hds4
  have hv4 : lookupTag ds4 0x00080018 = some (DValue.vs u) := by
    rw [hds4, accessionStep_lookup_ne ds3 _ r 0x00080018 (by decide)]
    exact hv3
  have ha4 : ds4.attrs = [] := by
    rw [hds4, accessionStep_attrs]
    have a2 : ds2.attrs = [] := by
      rw [dateFieldStep_attrs ds1 ds2 "PatientBirthDate"
        fl.anonymize_birth_date h3 (by decide), ha1]
    rw [dateFieldStep_attrs ds2 ds3 "AcquisitionDate"
      fl.anonymize_acquisition_date h4 (by decide), a2]
  unfold strictPhase at h5
  rw [hstrict] at h5
  simp only [if_true] at h5
  set ds4r := if ¬ fl.preserve_private_tags then removePrivate ds4 else ds4
    with hds4r
  have hv4r : lookupTag ds4r 0x00080018 = some (DValue.vs u) := by
    rw [hds4r]
    by_cases hp : fl.preserve_private_tags = true
    · simp [hp, hv4]
    · simp only [Bool.not_eq_true] at hp
      simp [hp, removePrivate_lookup_even ds4 0x00080018 (by decide), hv4]
  have ha4r : ds4r.attrs = [] := by
    rw [hds4r]
    by_cases hp : fl.preserve_private_tags = true
    · simp [hp, ha4]
    · simp only [Bool.not_eq_true] at hp
      simp [hp, removePrivate_attrs, ha4]
  have hmem : "SOPInstanceUID" ∈ pyDir ds4r :=
    pyDir_mem_of_lookup ds4r 0x00080018 (DValue.vs u) "SOPInstanceUID" hv4r
      (by decide)
  have hsop5 : lookupTag ds5 0x00080018 =
      some (DValue.vs (generate_dummy_uid u)) :=
    foldlM_strict_sop (pyDir ds4r) ds4r ds5 u h5 hmem (pyDir_nodup ds4r)
      ha4r (fun kw hk => pyDir_kw_isSome ds4r kw hk) hv4r
  rw [hrest, pyGetattrOpt_restored ds5 (snapshotPreserved ds)
    "SOPInstanceUID" 0x00080018 ha5 (fun p hp => snapshot_keys ds p hp)
    (by decide) (by decide), hsop5]

theorem anonymize_birth_present (ds : Dataset)
    (id_map : Option (List (String × String))) (fl : AnonFlags) (r : String)
    (d2 : Dataset) (b : String) (ha : ds.attrs = [])
    (hbd : fl.anonymize_birth_date = true)
    (hb : lookupTag ds 0x00100030 = some (DValue.vs b))
    (h : anonymize_dicom_tags ds id_map fl r = Except.ok d2) :
    pyGetattrOpt d2 "PatientBirthDate" =
      some (DValue.vs (generate_dummy_date b true)) := by
  rcases anonymize_ok_decomp ds id_map fl r d2 h with
    ⟨orig, new_id, ds2, ds3, ds5, h1, h2, h3, h4, h5, hrest⟩
  set ds1 := setattrPy (setattrPy ds "PatientID" (DValue.vs new_id))
    "PatientName" (DValue.vs new_id) with hds1
  have ha1 : ds1.attrs = [] := by
    rw [hds1, setattrPy_attrs_of_kw _ _ _ (by decide),
      setattrPy_attrs_of_kw _ _ _ (by decide), ha]
  have ha5 : ds5.attrs = [] := stages_attrs ds1 ds2 ds3 ds5 fl r h3 h4 h5 ha1
  have hv1 : lookupTag ds1 0x00100030 = some (DValue.vs b) := by
    rw [hds1, setattrPy_lookup_ne _ _ _ _ (by decide),
      setattrPy_lookup_ne _ _ _ _ (by decide)]
    exact hb
  have hstep := dateFieldStep_present ds1 "PatientBirthDate" 0x00100030 b
    (by decide) (by decide) (by rw [ha1]; rfl) hv1
  rw [hbd] at h3
  rw [hstep] at h3
  cases h3
  have hv2 : lookupTag (setattrPy ds1 "PatientBirthDate"
      (DValue.vs (generate_dummy_date b true))) 0x00100030 =
      some (DValue.vs (generate_dummy_date b true)) :=
    setattrPy_lookup_same _ _ _ _ (by decide)
  have hpres := stages_preserve_from2 _ ds3 ds5 fl r 0x00100030 h4 h5
    (by decide) (by decide) (by decide)
    (fun kw hkw d => by
      rw [tfk_unique 0x00100030 "PatientBirthDate" (by decide) kw hkw]
      exact strictStep_patientBirthDate d)
  rw [hrest, pyGetattrOpt_restored ds5 (snapshotPreserved ds)
    "PatientBirthDate" 0x00100030 ha5 (fun p hp => snapshot_keys ds p hp)
    (by decide) (by decide), hpres, hv2]

theorem anonymize_birth_absent (ds : Dataset)
    (id_map : Option (List (String × String))) (fl : AnonFlags) (r : String)
    (d2 : Dataset)
    (hb : lookupTag ds 0x00100030 = none)
    (h : anonymize_dicom_tags ds id_map fl r = Except.ok d2) :
    pyContains d2 "PatientBirthDate" = false := by
  rcases anonymize_ok_decomp ds id_map fl r d2 h with
    ⟨orig, new_id, ds2, ds3, ds5, h1, h2, h3, h4, h5, hrest⟩
  set ds1 := setattrPy (setattrPy ds "PatientID" (DValue.vs new_id))
    "PatientName" (DValue.vs new_id) with hds1
  have hv1 : lookupTag ds1 0x00100030 = none := by
    rw [hds1, setattrPy_lookup_ne _ _ _ _ (by decide),
      setattrPy_lookup_ne _ _ _ _ (by decide)]
    exact hb
  have hc1 : pyContains ds1 "PatientBirthDate" = false := by
    rw [pyContains_kw_eq ds1 "PatientBirthDate" 0x00100030 (by decide)
      (by decide), hv1]
    rfl
  rw [dateFieldStep_skip ds1 "PatientBirthDate" fl.anonymize_birth_date hc1]
    at h3
  injection h3 with h3e
  subst h3e
  have hpres := stages_preserve_from2 ds1 ds3 ds5 fl r 0x00100030 h4 h5
    (by decide) (by decide) (by decide)
    (fun kw hkw d => by
      rw [tfk_unique 0x00100030 "PatientBirthDate" (by decide) kw hkw]
      exact strictStep_patientBirthDate d)
  have hv5 : lookupTag ds5 0x00100030 = none := by rw [hpres, hv1]
  have helems : d2.elems = ds5.elems := by
    rw [hrest]
    exact restorePreserved_elems (snapshotPreserved ds) ds5
      (fun p hp => preserved_tags_not_kw p.1 (snapshot_keys ds p hp))
  rw [pyContains_kw_eq d2 "PatientBirthDate" 0x00100030 (by decide)
    (by decide)]
  unfold lookupTag
  rw [helems]
  unfold lookupTag at hv5
  rw [hv5]
  rfl

theorem anonymize_missing_id (ds : Dataset)
    (id_map : Option (List (String × String))) (fl : AnonFlags) (r : String)
    (hid : pyGetattrOpt ds
      (if fl.id_from_name then "PatientName" else "PatientID") = none) :
    anonymize_dicom_tags ds id_map fl r =
      Except.error PyExc.attributeError := by
  unfold anonymize_dicom_tags resolveOriginalId getattrE
  rw [hid]

theorem process_file_true (job : FileJob) (dest pat : String) (o : RunOpts)
    (ds dA : Dataset) (hread : job.read = Except.ok ds)
    (hsd : o.skip_derived = false) (hsb : o.skip_burned_in = false)
    (hanon : anonPhase ds o job.randDigits = Except.ok dA) :
    process_file job dest pat o = true := by
  unfold process_file copy_dicom_image
  rw [hread]
  simp only [hsd, hsb, Bool.false_eq_true, if_false, Bool.false_and]
  by_cases hext : isNonDicomName job.name = true
  · simp [hext]
  · simp only [Bool.not_eq_true] at hext
    simp [hext, hanon]

theorem copy_filename (job : FileJob) (dest pat : String) (o : RunOpts)
    (act : SaveAction)
    (h : copy_dicom_image job dest pat o = Except.ok (some act)) :
    act.file = get_dicom_attribute act.data "SOPInstanceUID" ++ ".dcm" := by
  unfold copy_dicom_image at h
  by_cases hext : isNonDicomName job.name = true
  · rw [hext] at h
    simp at h
  · simp only [Bool.not_eq_true] at hext
    rw [hext] at h
    simp only [Bool.false_eq_true, if_false] at h
    cases hread : job.read with
    | error e => rw [hread] at h; simp at h
    | ok ds0 =>
      rw [hread] at h
      cases hanon : anonPhase ds0 o job.randDigits with
      | error e => simp only [hanon] at h; cases h
      | ok dsA =>
        simp only [hanon] at h
        injection h with h2
        injection h2 with h3
        rw [← h3]

/-!  Counter aggregation lemmas for copy_directory. -/

theorem copy_directory_loop_none (rs : List Bool) (i s f : Nat) :
    copy_directory_loop rs none i s f =
      RunOutcome.completed (s + rs.count true) (f + rs.count false) := by
  induction rs generalizing i s f with
  | nil => simp [copy_directory_loop]
  | cons r rest ih =>
    unfold copy_directory_loop
    simp only
    rw [ih]
    cases r with
    | true => simp [List.count_cons]; omega
    | false => simp [List.count_cons]; omega

theorem count_true_add_count_false (rs : List Bool) :
    rs.count true + rs.count false = rs.length := by
  induction rs with
  | nil => rfl
  | cons r rest ih =>
    cases r with
    | true => simp [List.count_cons]; omega
    | false => simp [List.count_cons]; omega

theorem loop_cancel_aux (flag : Nat → Bool) (k : Nat)
    (hk : flag k = true)
    (rs : List Bool) :
    ∀ i s f, (∀ j, j < i → flag j = false) → s + f ≤ i →
      k < i + rs.length →
      ∃ s2 f2, copy_directory_loop rs (some flag) i s f =
        RunOutcome.cancelled s2 f2 ∧ s2 + f2 ≤ k := by
  induction rs with
  | nil =>
    intro i s f hflags hsf hlen
    simp only [List.length_nil, Nat.add_zero] at hlen
    exact absurd hk (by simp [hflags k hlen])
  | cons r rest ih =>
    intro i s f hflags hsf hlen
    unfold copy_directory_loop
    by_cases hf : flag i = true
    · refine ⟨s, f, by simp [hf], ?_⟩
      have hik : i ≤ k := by
        by_contra hc
        push_neg at hc
        rw [hflags k hc] at hk
        cases hk
      omega
    · simp only [Bool.not_eq_true] at hf
      simp only [hf, Bool.false_eq_true, if_false]
      apply ih (i + 1)
      · intro j hj
        by_cases hji : j < i
        · exact hflags j hji
        · have : j = i := by omega
          rw [this, hf]
      · cases r <;> simp <;> omega
      · simp only [List.length_cons] at hlen
        omega

/-!  Evaluation of the classifier on datasets with explicit fields. -/

/-- The manufacturer string the classifier computes (empty when the
element is absent). -/

theorem classifier_manu_part (ds : Dataset) (ha : ds.attrs = []) :
    (if pyContains ds "Manufacturer" then
       (getattrE ds "Manufacturer").map asPyStr
     else Except.ok "") = Except.ok (manufacturerStr ds) := by
  cases hm : lookupTag ds 0x00080070 with
  | none =>
    have hc : pyContains ds "Manufacturer" = false := by
      rw [pyContains_kw_eq ds _ 0x00080070 (by decide) (by decide), hm]
      rfl
    have hstr : manufacturerStr ds = "" := by
      unfold manufacturerStr pyGetattrOpt
      rw [ha]
      have ht : tag_for_keyword "Manufacturer" = some 0x00080070 := by decide
      simp only [alookup, ht, hm]
    rw [hc, hstr]
    simp
  | some v =>
    have hc : pyContains ds "Manufacturer" = true := by
      rw [pyContains_kw_eq ds _ 0x00080070 (by decide) (by decide), hm]
      rfl
    have hg : getattrE ds "Manufacturer" = Except.ok v := by
      unfold getattrE pyGetattrOpt
      rw [ha]
      have ht : tag_for_keyword "Manufacturer" = some 0x00080070 := by decide
      simp only [alookup, ht, hm]
    have hstr : manufacturerStr ds = asPyStr v := by
      unfold manufacturerStr pyGetattrOpt
      rw [ha]
      have ht : tag_for_keyword "Manufacturer" = some 0x00080070 := by decide
      simp only [alookup, ht, hm]
    rw [hc, hstr]
    simp only [if_true, hg, Except.map]

theorem classifier_desc_part (ds : Dataset) (ha : ds.attrs = []) :
    (if pyContains ds "SeriesDescription" then
       (getattrE ds "SeriesDescription").map (fun v => upperStr (asPyStr v))
     else Except.ok "") = Except.ok (seriesDescUpper ds) := by
  cases hm : lookupTag ds 0x0008103E with
  | none =>
    have hc : pyContains ds "SeriesDescription" = false := by
      rw [pyContains_kw_eq ds _ 0x0008103E (by decide) (by decide), hm]
      rfl
    have hstr : seriesDescUpper ds = "" := by
      unfold seriesDescUpper pyGetattrOpt
      rw [ha]
      have ht : tag_for_keyword "SeriesDescription" = some 0x0008103E := by
        decide
      simp only [alookup, ht, hm]
    rw [hc, hstr]
    simp
  | some v =>
    have hc : pyContains ds "SeriesDescription" = true := by
      rw [pyContains_kw_eq ds _ 0x0008103E (by decide) (by decide), hm]
      rfl
    have hg : getattrE ds "SeriesDescription" = Except.ok v := by
      unfold getattrE pyGetattrOpt
      rw [ha]
      have ht : tag_for_keyword "SeriesDescription" = some 0x0008103E := by
        decide
      simp only [alookup, ht, hm]
    have hstr : seriesDescUpper ds = upperStr (asPyStr v) := by
      unfold seriesDescUpper pyGetattrOpt
      rw [ha]
      have ht : tag_for_keyword "SeriesDescription" = some 0x0008103E := by
        decide
      simp only [alookup, ht, hm]
    rw [hc, hstr]
    simp only [if_true, hg, Except.map]

theorem is_derived_image_eval (ds : Dataset) (l : List String)
    (ha : ds.attrs = [])
    (hit : lookupTag ds 0x00080008 = some (DValue.vl l)) :
    is_derived_image ds = Except.ok (
      !(l.any (fun it => strContains it "PRIMARY")) ||
      !(strContains (manufacturerStr ds) "Philips") ||
      l.any (fun it => strContains it "PROJECTION") ||
      l.any (fun it => strContains it "RCBV") ||
      l.any (fun it => strContains it "DERIVED") ||
      l.any (fun it => strContains it "SECONDARY") ||
      l.any (fun it => strContains it "ADC") ||
      strContains (seriesDescUpper ds) "REG" ||
      strContains (seriesDescUpper ds) "ADC" ||
      (strContains (seriesDescUpper ds) "SURVEY" ||
       strContains (seriesDescUpper ds) "SURV" ||
       strContains (seriesDescUpper ds) "SMART" ||
       strContains (seriesDescUpper ds) "SCOUT" ||
       strContains (seriesDescUpper ds) "SV")) := by
  have h1 : (if pyContains ds "ImageType" then
      (getattrE ds "ImageType").bind imageTypeItems
    else Except.ok []) = Except.ok l := by
    have hc : pyContains ds "ImageType" = true := by
      rw [pyContains_kw_eq ds _ 0x00080008 (by decide) (by decide), hit]
      rfl
    have hg : getattrE ds "ImageType" = Except.ok (DValue.vl l) := by
      unfold getattrE pyGetattrOpt
      rw [ha]
      have ht : tag_for_keyword "ImageType" = some 0x00080008 := by decide
      simp only [alookup, ht, hit]
    rw [hc]
    simp only [if_true, hg, Except.bind, imageTypeItems]
  unfold is_derived_image
  rw [h1, classifier_manu_part ds ha, classifier_desc_part ds ha]

/-- Whether a run outcome is the cancelled one. -/

theorem generate_dummy_date_parsed (b : String) (y m d : Nat)
    (h : strptimeYmd b = some (y, m, d)) :
    generate_dummy_date b true = padZeroLeft (toString y) 4 ++ "0101" := by
  unfold generate_dummy_date
  by_cases hb : b = ""
  · subst hb
    simp [strptimeYmd, monthCands] at h
  · simp only [hb, if_neg, if_false, h]
    unfold fmtYmd
    have h1 : padZeroLeft (toString 1) 2 = "01" := rfl
    rw [h1]
    simp only [if_true]
    rw [String.append_assoc]
    rfl

theorem generate_dummy_date_unparsed (b : String)
    (h : strptimeYmd b = none) :
    generate_dummy_date b true = "20000101" := by
  unfold generate_dummy_date
  by_cases hb : b = ""
  · simp [hb]
  · simp [hb, h]

/-!  The claims. -/

/-- Claim C1: for every dataset whose resolved original identifier
(PatientName when id_from_name is set, else PatientID) has an entry in
the correlation table, anonymize_dicom_tags sets the PatientID field
to exactly the replacement identifier from the table and sets
PatientName equal to PatientID.  In particular, with a table mapping
OLD1 to NEW1, a dataset with identifier OLD1 anonymized under the
basic policy ends with identifier exactly NEW1 (witness). -/

theorem claim_C1_correlation_hit (ds : Dataset) (m : List (String × String))
    (fl : AnonFlags) (r : String) (x n : String)
    (ha : ds.attrs = [])
    (hid : pyGetattrOpt ds
      (if fl.id_from_name then "PatientName" else "PatientID") =
      some (DValue.vs x))
    (hmap : lookupCorr (some m) x = some n) :
    ∀ d2, anonymize_dicom_tags ds (some m) fl r = Except.ok d2 →
      pyGetattrOpt d2 "PatientID" = some (DValue.vs n) ∧
      pyGetattrOpt d2 "PatientName" = pyGetattrOpt d2 "PatientID" := by
  intro d2 h
  rcases anonymize_ok_ids ds (some m) fl r d2 ha h with
    ⟨orig, new_id, h1, h2, hp, hn⟩
  have horig : orig = DValue.vs x := by
    unfold resolveOriginalId getattrE at h1
    rw [hid] at h1
    injection h1 with h1e
    exact h1e.symm
  subst horig
  have hnew : new_id = n := by
    unfold resolveNewId at h2
    simp only [hmap] at h2
    injection h2 with h2e
    exact h2e.symm
  subst hnew
  exact ⟨hp, by rw [hn, hp]⟩

theorem claim_C1_witness :
    lookupCorr (some [("OLD1", "NEW1")]) "OLD1" = some "NEW1" ∧
    pyGetattrOpt ⟨[(0x00100020, DValue.vs "NEW1"),
        (0x00100010, DValue.vs "NEW1")], []⟩ "PatientID" =
      some (DValue.vs "NEW1") ∧
    pyGetattrOpt ⟨[(0x00100020, DValue.vs "NEW1"),
        (0x00100010, DValue.vs "NEW1")], []⟩ "PatientName" =
      pyGetattrOpt ⟨[(0x00100020, DValue.vs "NEW1"),
        (0x00100010, DValue.vs "NEW1")], []⟩ "PatientID" := by
  refine ⟨by decide, ?_, ?_⟩
  · exact (claim_C1_correlation_hit ⟨[(0x00100020, DValue.vs "OLD1")], []⟩
      [("OLD1", "NEW1")] {} "" "OLD1" "NEW1" rfl (by decide) (by decide)
      ⟨[(0x00100020, DValue.vs "NEW1"), (0x00100010, DValue.vs "NEW1")], []⟩
      rfl).1
  · exact (claim_C1_correlation_hit ⟨[(0x00100020, DValue.vs "OLD1")], []⟩
      [("OLD1", "NEW1")] {} "" "OLD1" "NEW1" rfl (by decide) (by decide)
      ⟨[(0x00100020, DValue.vs "NEW1"), (0x00100010, DValue.vs "NEW1")], []⟩
      rfl).2

/-- Claim C2: pseudonym and replacement UID generation are
deterministic: for an identifier X not in the correlation table the
pseudonym assigned to PatientID is the fixed MD5 derivative of X, and
so is identical across two runs in the same process, whatever the
random accession draws of the two runs are; and two objects sharing an
original SOP instance UID anonymized under the strict policy both
receive the same replacement identifier, the fixed SHA-256 derivative
of the original. -/

theorem claim_C2_determinism (ds : Dataset)
    (id_map : Option (List (String × String))) (fl : AnonFlags)
    (r1 r2 : String) (x : String)
    (ha : ds.attrs = [])
    (hid : pyGetattrOpt ds
      (if fl.id_from_name then "PatientName" else "PatientID") =
      some (DValue.vs x))
    (hmap : lookupCorr id_map x = none) :
    (∀ d1, anonymize_dicom_tags ds id_map fl r1 = Except.ok d1 →
      pyGetattrOpt d1 "PatientID" = some (DValue.vs (generate_dummy_id x))) ∧
    (∀ d1 d2, anonymize_dicom_tags ds id_map fl r1 = Except.ok d1 →
      anonymize_dicom_tags ds id_map fl r2 = Except.ok d2 →
      pyGetattrOpt d1 "PatientID" = pyGetattrOpt d2 "PatientID") ∧
    (fl.strict = true → ∀ (dsB : Dataset) (u : String) (dA dB : Dataset),
      dsB.attrs = [] →
      lookupTag ds 0x00080018 = some (DValue.vs u) →
      lookupTag dsB 0x00080018 = some (DValue.vs u) →
      anonymize_dicom_tags ds id_map fl r1 = Except.ok dA →
      anonymize_dicom_tags dsB id_map fl r2 = Except.ok dB →
      pyGetattrOpt dA "SOPInstanceUID" =
        some (DValue.vs (generate_dummy_uid u)) ∧
      pyGetattrOpt dB "SOPInstanceUID" =
        pyGetattrOpt dA "SOPInstanceUID") := by
  have hpid : ∀ (r : String) (d1 : Dataset),
      anonymize_dicom_tags ds id_map fl r = Except.ok d1 →
      pyGetattrOpt d1 "PatientID" =
        some (DValue.vs (generate_dummy_id x)) := by
    intro r d1 h
    rcases anonymize_ok_ids ds id_map fl r d1 ha h with
      ⟨orig, new_id, h1, h2, hp, hn⟩
    have horig : orig = DValue.vs x := by
      unfold resolveOriginalId getattrE at h1
      rw [hid] at h1
      injection h1 with h1e
      exact h1e.symm
    subst horig
    have hnew : generate_dummy_id x = new_id := by
      unfold resolveNewId at h2
      simp only [hmap, Except.ok.injEq] at h2
      exact h2
    rw [← hnew] at hp
    exact hp
  refine ⟨hpid r1, ?_, ?_⟩
  · intro d1 d2 h1 h2
    rw [hpid r1 d1 h1, hpid r2 d2 h2]
  · intro hs dsB u dA dB haB hu huB hA hB
    have h1 := anonymize_strict_sop ds id_map fl r1 dA u ha hs hu hA
    have h2 := anonymize_strict_sop dsB id_map fl r2 dB u haB hs huB hB
    exact ⟨h1, by rw [h2, h1]⟩

set_option maxHeartbeats 2000000 in

theorem claim_C2_witness :
    lookupCorr (none : Option (List (String × String))) "XY" = none ∧
    pyGetattrOpt ⟨[(0x00100020, DValue.vs (generate_dummy_id "XY")),
        (0x00080018, DValue.vs (generate_dummy_uid "1.2.840.10008.555")),
        (0x00100010, DValue.vs (generate_dummy_id "XY"))], []⟩ "PatientID" =
      some (DValue.vs (generate_dummy_id "XY")) ∧
    pyGetattrOpt ⟨[(0x00100020, DValue.vs (generate_dummy_id "XY")),
        (0x00080018, DValue.vs (generate_dummy_uid "1.2.840.10008.555")),
        (0x00100010, DValue.vs (generate_dummy_id "XY"))], []⟩
        "SOPInstanceUID" =
      some (DValue.vs (generate_dummy_uid "1.2.840.10008.555")) ∧
    pyGetattrOpt ⟨[(0x00100020, DValue.vs (generate_dummy_id "AB")),
        (0x00080018, DValue.vs (generate_dummy_uid "1.2.840.10008.555")),
        (0x00100010, DValue.vs (generate_dummy_id "AB"))], []⟩
        "SOPInstanceUID" =
      pyGetattrOpt ⟨[(0x00100020, DValue.vs (generate_dummy_id "XY")),
        (0x00080018, DValue.vs (generate_dummy_uid "1.2.840.10008.555")),
        (0x00100010, DValue.vs (generate_dummy_id "XY"))], []⟩
        "SOPInstanceUID" := by
  have T := claim_C2_determinism
    ⟨[(0x00100020, DValue.vs "XY"),
      (0x00080018, DValue.vs "1.2.840.10008.555")], []⟩
    none { strict := true } "" "9999999999999999" "XY" rfl (by decide) rfl
  refine ⟨rfl, T.1 ⟨[(0x00100020, DValue.vs (generate_dummy_id "XY")),
      (0x00080018, DValue.vs (generate_dummy_uid "1.2.840.10008.555")),
      (0x00100010, DValue.vs (generate_dummy_id "XY"))], []⟩ rfl, ?_⟩
  have h3 := T.2.2 rfl
    ⟨[(0x00100020, DValue.vs "AB"),
      (0x00080018, DValue.vs "1.2.840.10008.555")], []⟩
    "1.2.840.10008.555"
    ⟨[(0x00100020, DValue.vs (generate_dummy_id "XY")),
      (0x00080018, DValue.vs (generate_dummy_uid "1.2.840.10008.555")),
      (0x00100010, DValue.vs (generate_dummy_id "XY"))], []⟩
    ⟨[(0x00100020, DValue.vs (generate_dummy_id "AB")),
      (0x00080018, DValue.vs (generate_dummy_uid "1.2.840.10008.555")),
      (0x00100010, DValue.vs (generate_dummy_id "AB"))], []⟩
    rfl rfl rfl rfl rfl
  exact ⟨h3.1, h3.2⟩

/-- Claim C3: the claim states that every preserved tag present in the
input keeps its value through anonymization under both policies
because the values are snapshotted and restored.  The code evaluated
here shows the opposite for the private preserved tags under the
strict policy: the input dataset contains the preserved Philips
private tag 20050010, the strict pass removes it with the private
groups, and the restore loop only creates an inert Python instance
attribute (the snapshot value was already Python None because
Dataset.get with a hexadecimal string key is a failed keyword lookup),
so the output dataset no longer contains the tag. -/

theorem claim_C3_code_eval :
    pyContains ⟨[(0x00100020, DValue.vs "P1"),
      (0x20050010, DValue.vs "PhilipsDD1")], []⟩ "20050010" = true ∧
    "20050010" ∈ preserved_tags ∧
    anonymize_dicom_tags ⟨[(0x00100020, DValue.vs "P1"),
        (0x20050010, DValue.vs "PhilipsDD1")], []⟩ (some [("P1", "N1")])
        { strict := true } "" =
      Except.ok ⟨[(0x00100020, DValue.vs "N1"),
        (0x00100010, DValue.vs "N1")], [("20050010", DValue.vnone)]⟩ ∧
    pyContains ⟨[(0x00100020, DValue.vs "N1"),
      (0x00100010, DValue.vs "N1")], [("20050010", DValue.vnone)]⟩
      "20050010" = false :=
  ⟨by decide, by decide, rfl, by decide⟩

/-- Claim C4, counterexample to the claim as stated: anonymize is not
exception free on every dataset with a missing expected field; a
dataset with no PatientID field (and id_from_name unset) raises
AttributeError at the identifier read. -/

theorem claim_C4_counterexample :
    anonymize_dicom_tags ⟨[], []⟩ none {} "" =
      Except.error PyExc.attributeError := rfl

/-- Claim C4, amended: the optional fields are treated as absent
without an exception; in particular a dataset with no birth date field
and birth date anonymization enabled anonymizes without fabricating a
birth date and the object is still written (process_file succeeds).
But a missing identifier field raises AttributeError, which the per
file handler catches as a failure. -/

theorem claim_C4_amended (ds : Dataset)
    (id_map : Option (List (String × String))) (fl : AnonFlags) (r : String)
    (job : FileJob) (dest pat : String) (o : RunOpts) (dsj dA : Dataset) :
    (pyGetattrOpt ds
        (if fl.id_from_name then "PatientName" else "PatientID") = none →
      anonymize_dicom_tags ds id_map fl r =
        Except.error PyExc.attributeError) ∧
    (lookupTag ds 0x00100030 = none →
      ∀ d2, anonymize_dicom_tags ds id_map fl r = Except.ok d2 →
        pyContains d2 "PatientBirthDate" = false) ∧
    (job.read = Except.ok dsj → o.skip_derived = false →
      o.skip_burned_in = false →
      anonPhase dsj o job.randDigits = Except.ok dA →
      process_file job dest pat o = true) := by
  refine ⟨?_, ?_, ?_⟩
  · intro hid
    exact anonymize_missing_id ds id_map fl r hid
  · intro hb d2 h
    exact anonymize_birth_absent ds id_map fl r d2 hb h
  · intro hread hsd hsb hanon
    exact process_file_true job dest pat o dsj dA hread hsd hsb hanon

theorem claim_C4_witness :
    anonymize_dicom_tags ⟨[], []⟩ none {} "" =
      Except.error PyExc.attributeError ∧
    pyContains ⟨[(0x00100020, DValue.vs "N1"),
      (0x00100010, DValue.vs "N1")], []⟩ "PatientBirthDate" = false ∧
    process_file ⟨"a.dcm", Except.ok ⟨[(0x00100020, DValue.vs "P1")], []⟩,
        ""⟩ "out" sortPattern
      { anonymize := true, id_map := some [("P1", "N1")],
        anonymize_birth_date := true } = true := by
  refine ⟨?_, ?_, ?_⟩
  · exact (claim_C4_amended ⟨[], []⟩ none {} ""
      ⟨"x", Except.error PyExc.attributeError, ""⟩ "out" sortPattern {}
      ⟨[], []⟩ ⟨[], []⟩).1 rfl
  · exact (claim_C4_amended ⟨[(0x00100020, DValue.vs "P1")], []⟩
      (some [("P1", "N1")]) { anonymize_birth_date := true } ""
      ⟨"x", Except.error PyExc.attributeError, ""⟩ "out" sortPattern {}
      ⟨[], []⟩ ⟨[], []⟩).2.1 rfl
      ⟨[(0x00100020, DValue.vs "N1"), (0x00100010, DValue.vs "N1")], []⟩ rfl
  · exact (claim_C4_amended ⟨[], []⟩ none {} ""
      ⟨"a.dcm", Except.ok ⟨[(0x00100020, DValue.vs "P1")], []⟩, ""⟩
      "out" sortPattern
      { anonymize := true, id_map := some [("P1", "N1")],
        anonymize_birth_date := true }
      ⟨[(0x00100020, DValue.vs "P1")], []⟩
      ⟨[(0x00100020, DValue.vs "N1"), (0x00100010, DValue.vs "N1")],
        []⟩).2.2 rfl rfl rfl rfl

/-- Claim C5, counterexample to the claim as stated: an object whose
image type contains PRIMARY, contains neither DERIVED nor SECONDARY,
and whose manufacturer is the expected vendor is still classified
derived when another marker (here PROJECTION) is present, so the
first half of the claim is false. -/

theorem claim_C5_counterexample :
    ["ORIGINAL", "PRIMARY", "PROJECTION"].any
      (fun it => strContains it "PRIMARY") = true ∧
    ["ORIGINAL", "PRIMARY", "PROJECTION"].any
      (fun it => strContains it "DERIVED") = false ∧
    ["ORIGINAL", "PRIMARY", "PROJECTION"].any
      (fun it => strContains it "SECONDARY") = false ∧
    strContains "Philips Medical Systems" "Philips" = true ∧
    is_derived_image ⟨[(0x00080008,
        DValue.vl ["ORIGINAL", "PRIMARY", "PROJECTION"]),
      (0x00080070, DValue.vs "Philips Medical Systems")], []⟩ =
      Except.ok true :=
  ⟨by decide, by decide, by decide, by decide, rfl⟩

/-- Claim C5, amended: an object with a PRIMARY marker, none of the
DERIVED, SECONDARY, PROJECTION, RCBV or ADC markers, a manufacturer
containing the expected vendor string, and a series description free
of the REG, ADC and survey patterns classifies as keep
(is_derived_image is false); and any object whose image type carries a
SECONDARY marker classifies as derived regardless of the other
markers. -/

theorem claim_C5_amended (ds : Dataset) (l : List String)
    (ha : ds.attrs = [])
    (hit : lookupTag ds 0x00080008 = some (DValue.vl l)) :
    (l.any (fun it => strContains it "PRIMARY") = true →
      l.any (fun it => strContains it "DERIVED") = false →
      l.any (fun it => strContains it "SECONDARY") = false →
      l.any (fun it => strContains it "PROJECTION") = false →
      l.any (fun it => strContains it "RCBV") = false →
      l.any (fun it => strContains it "ADC") = false →
      strContains (manufacturerStr ds) "Philips" = true →
      strContains (seriesDescUpper ds) "REG" = false →
      strContains (seriesDescUpper ds) "ADC" = false →
      strContains (seriesDescUpper ds) "SURVEY" = false →
      strContains (seriesDescUpper ds) "SURV" = false →
      strContains (seriesDescUpper ds) "SMART" = false →
      strContains (seriesDescUpper ds) "SCOUT" = false →
      strContains (seriesDescUpper ds) "SV" = false →
      is_derived_image ds = Except.ok false) ∧
    (l.any (fun it => strContains it "SECONDARY") = true →
      is_derived_image ds = Except.ok true) := by
  rw [is_derived_image_eval ds l ha hit]
  constructor
  · intro h1 h2 h3 h4 h5 h6 h7 h8 h9 h10 h11 h12 h13 h14
    simp [h1, h2, h3, h4, h5, h6, h7, h8, h9, h10, h11, h12, h13, h14]
  · intro h1
    simp [h1]

theorem claim_C5_witness :
    is_derived_image ⟨[(0x00080008, DValue.vl ["ORIGINAL", "PRIMARY"]),
      (0x00080070, DValue.vs "Philips Medical Systems")], []⟩ =
      Except.ok false ∧
    is_derived_image ⟨[(0x00080008,
      DValue.vl ["ORIGINAL", "SECONDARY"])], []⟩ = Except.ok true := by
  constructor
  · exact (claim_C5_amended ⟨[(0x00080008,
      DValue.vl ["ORIGINAL", "PRIMARY"]),
      (0x00080070, DValue.vs "Philips Medical Systems")], []⟩
      ["ORIGINAL", "PRIMARY"] rfl rfl).1 (by decide) (by decide) (by decide)
      (by decide) (by decide) (by decide) (by decide) (by decide)
      (by decide) (by decide) (by decide) (by decide) (by decide)
      (by decide)
  · exact (claim_C5_amended ⟨[(0x00080008,
      DValue.vl ["ORIGINAL", "SECONDARY"])], []⟩
      ["ORIGINAL", "SECONDARY"] rfl rfl).2 (by decide)

/-- Claim C6: when birth date anonymization is enabled and the birth
date field is present, a value that parses as a calendar date becomes
January 1 of the same year, and an unparsable or empty value becomes
the fixed epoch date 20000101. -/

theorem claim_C6_birth_date (ds : Dataset)
    (id_map : Option (List (String × String))) (fl : AnonFlags) (r : String)
    (d2 : Dataset) (b : String) (y m d : Nat)
    (ha : ds.attrs = []) (hbd : fl.anonymize_birth_date = true)
    (hb : lookupTag ds 0x00100030 = some (DValue.vs b))
    (h : anonymize_dicom_tags ds id_map fl r = Except.ok d2) :
    (strptimeYmd b = some (y, m, d) →
      pyGetattrOpt d2 "PatientBirthDate" =
        some (DValue.vs (padZeroLeft (toString y) 4 ++ "0101"))) ∧
    (strptimeYmd b = none →
      pyGetattrOpt d2 "PatientBirthDate" =
        some (DValue.vs "20000101")) := by
  have hmain := anonymize_birth_present ds id_map fl r d2 b ha hbd hb h
  constructor
  · intro hp
    rw [hmain, generate_dummy_date_parsed b y m d hp]
  · intro hp
    rw [hmain, generate_dummy_date_unparsed b hp]

theorem claim_C6_witness :
    strptimeYmd "19850623" = some (1985, 6, 23) ∧
    padZeroLeft (toString 1985) 4 ++ "0101" = "19850101" ∧
    pyGetattrOpt ⟨[(0x00100020, DValue.vs "N1"),
        (0x00100030, DValue.vs "19850101"),
        (0x00100010, DValue.vs "N1")], []⟩ "PatientBirthDate" =
      some (DValue.vs (padZeroLeft (toString 1985) 4 ++ "0101")) ∧
    pyGetattrOpt ⟨[(0x00100020, DValue.vs "N1"),
        (0x00100030, DValue.vs "20000101"),
        (0x00100010, DValue.vs "N1")], []⟩ "PatientBirthDate" =
      some (DValue.vs "20000101") := by
  refine ⟨by decide, rfl, ?_, ?_⟩
  · exact (claim_C6_birth_date ⟨[(0x00100020, DValue.vs "P1"),
      (0x00100030, DValue.vs "19850623")], []⟩ (some [("P1", "N1")])
      { anonymize_birth_date := true } ""
      ⟨[(0x00100020, DValue.vs "N1"), (0x00100030, DValue.vs "19850101"),
        (0x00100010, DValue.vs "N1")], []⟩
      "19850623" 1985 6 23 rfl rfl rfl rfl).1 (by decide)
  · exact (claim_C6_birth_date ⟨[(0x00100020, DValue.vs "P1"),
      (0x00100030, DValue.vs "garbage")], []⟩ (some [("P1", "N1")])
      { anonymize_birth_date := true } ""
      ⟨[(0x00100020, DValue.vs "N1"), (0x00100030, DValue.vs "20000101"),
        (0x00100010, DValue.vs "N1")], []⟩
      "garbage" 0 0 0 rfl rfl rfl rfl).2 (by decide)

/-- Claim C7, counterexample to the claim as stated: the counter
suffix fallback is never invoked.  For a dataset without a SOP
UID the written name is the UNKNOWN sentinel with the dcm
suffix, even when that name already exists in the destination
directory, where the claim would require the fallback name with the
counter suffix. -/

theorem claim_C7_counterexample :
    pyContains ⟨[(0x00100020, DValue.vs "P")], []⟩ "SOPInstanceUID" =
      false ∧
    copy_dicom_image ⟨"a.dcm",
        Except.ok ⟨[(0x00100020, DValue.vs "P")], []⟩, ""⟩ "out"
        sortPattern {} =
      Except.ok (some ⟨"out/P/UNKNOWN/UNKNOWN_UNKNOWN_KNOWN",
        "UNKNOWN.dcm", ⟨[(0x00100020, DValue.vs "P")], []⟩⟩) ∧
    generate_unique_filename ["UNKNOWN.dcm"] "UNKNOWN.dcm" =
      "UNKNOWN_1.dcm" ∧
    "UNKNOWN.dcm" ≠ "UNKNOWN_1.dcm" :=
  ⟨by decide, rfl, rfl, by decide⟩

/-- Claim C7, amended: every written object gets the file name derived
from the SOP instance UID attribute of the saved dataset (the UNKNOWN
sentinel standing in when the attribute is absent) with the dcm
suffix; the counter suffix scheme of generate_unique_filename exists
in the source but is never invoked by the write path. -/

theorem claim_C7_amended (job : FileJob) (dest pat : String) (o : RunOpts)
    (act : SaveAction)
    (h : copy_dicom_image job dest pat o = Except.ok (some act)) :
    act.file = get_dicom_attribute act.data "SOPInstanceUID" ++ ".dcm" :=
  copy_filename job dest pat o act h

theorem claim_C7_witness :
    (⟨"out/UNKNOWN/UNKNOWN/UNKNOWN_UNKNOWN_KNOWN", "1.2.3.dcm",
        ⟨[(0x00080018, DValue.vs "1.2.3")], []⟩⟩ : SaveAction).file =
      get_dicom_attribute
        (⟨"out/UNKNOWN/UNKNOWN/UNKNOWN_UNKNOWN_KNOWN", "1.2.3.dcm",
          ⟨[(0x00080018, DValue.vs "1.2.3")], []⟩⟩ : SaveAction).data
        "SOPInstanceUID" ++ ".dcm" :=
  claim_C7_amended ⟨"a.dcm", Except.ok ⟨[(0x00080018, DValue.vs "1.2.3")],
    []⟩, ""⟩ "out" sortPattern {} _ rfl

/-- Claim C8, counterexample to the claim as stated: the run level
aggregation has no skipped counter.  A file filtered out by the
derived image classifier returns the failure flag and increments the
failure counter: a one file run with skip_derived consisting of a
derived object completes with zero successes and one failure. -/

theorem claim_C8_counterexample :
    is_derived_image ⟨[], []⟩ = Except.ok true ∧
    process_file ⟨"scan.dcm", Except.ok ⟨[], []⟩, ""⟩ "out" sortPattern
      { skip_derived := true } = false ∧
    copy_directory [⟨"scan.dcm", Except.ok ⟨[], []⟩, ""⟩] "out" sortPattern
      { skip_derived := true } none = RunOutcome.completed 0 1 :=
  ⟨rfl, rfl, rfl⟩

/-- Claim C8, amended: without cancellation the run aggregates exactly
one outcome per enumerated file into the two counters succeeded and
failed (their sum is the file count); a file skipped by the derived
image classifier and a file whose read raises are both counted in the
failed counter, and neither aborts the run. -/

theorem claim_C8_amended (jobs : List FileJob) (dest pat : String)
    (o : RunOpts) (job job2 : FileJob) (ds : Dataset) (e : PyExc) :
    copy_directory jobs dest pat o none =
      RunOutcome.completed
        ((jobs.map (fun j => process_file j dest pat o)).count true)
        ((jobs.map (fun j => process_file j dest pat o)).count false) ∧
    (jobs.map (fun j => process_file j dest pat o)).count true +
      (jobs.map (fun j => process_file j dest pat o)).count false =
      jobs.length ∧
    (job.read = Except.ok ds → o.skip_derived = true →
      is_derived_image ds = Except.ok true →
      process_file job dest pat o = false) ∧
    (job2.read = Except.error e → process_file job2 dest pat o = false) := by
  refine ⟨?_, ?_, ?_, ?_⟩
  · unfold copy_directory
    rw [copy_directory_loop_none]
    simp
  · rw [count_true_add_count_false, List.length_map]
  · intro hread hsd hder
    unfold process_file
    rw [hread]
    simp [hsd, hder]
  · intro hread
    unfold process_file
    rw [hread]

theorem claim_C8_witness :
    copy_directory [⟨"scan.dcm", Except.ok ⟨[], []⟩, ""⟩] "out" sortPattern
      { skip_derived := true } none =
      RunOutcome.completed
        (([⟨"scan.dcm", Except.ok ⟨[], []⟩, ""⟩].map
          (fun j => process_file j "out" sortPattern
            { skip_derived := true })).count true)
        (([⟨"scan.dcm", Except.ok ⟨[], []⟩, ""⟩].map
          (fun j => process_file j "out" sortPattern
            { skip_derived := true })).count false) ∧
    process_file ⟨"scan.dcm", Except.ok ⟨[], []⟩, ""⟩ "out" sortPattern
      { skip_derived := true } = false ∧
    process_file ⟨"bad.dcm", Except.error PyExc.typeError, ""⟩ "out"
      sortPattern { skip_derived := true } = false := by
  have T := claim_C8_amended [⟨"scan.dcm", Except.ok ⟨[], []⟩, ""⟩]
    "out" sortPattern { skip_derived := true }
    ⟨"scan.dcm", Except.ok ⟨[], []⟩, ""⟩
    ⟨"bad.dcm", Except.error PyExc.typeError, ""⟩ ⟨[], []⟩ PyExc.typeError
  exact ⟨T.1, T.2.2.1 rfl rfl rfl, T.2.2.2 rfl⟩

/-- Claim C9: the specified cancellation contract (once the shared
flag is set, the run ends in a cancelled outcome with at most the
completions counted so far and the finished signal is never emitted)
is unreachable from the GUI as the program is wired.  The call in
SortingThread.run supplies eight positional arguments to sort_dicom,
whose twelve required parameters leave id_from_name,
anonymize_birth_date, anonymize_acquisition_date and
preserve_private_tags unbound, so every run of the thread raises
TypeError at the call, emits the error signal, never emits finished,
and enters no sorting run at all, whatever the input files, the
options, and the cancellation flag history.  (The CLI path passes
cancel_flag=None to copy_directory, so the polling branch is
unreachable there too.) -/

theorem claim_C9_code_eval (jobs : List FileJob) (dest : String)
    (o : RunOpts) (flag : Nat → Bool) :
    gui_sort_dicom_call jobs dest o flag = Except.error PyExc.typeError ∧
    sorting_thread_run jobs dest o flag =
      { outcome := none, finishedEmitted := false, errorEmitted := true } :=
  ⟨rfl, rfl⟩

/-- Claim C10, counterexample to the claim as stated: a file whose
name ends in a non DICOM extension does not always return a success
outcome; when the derived image skip filter is enabled and the parsed
dataset classifies as derived (as an empty dataset does), the unit
returns the failure outcome. -/

theorem claim_C10_counterexample :
    isNonDicomName "scan.png" = true ∧
    process_file ⟨"scan.png", Except.ok ⟨[], []⟩, ""⟩ "out" sortPattern
      { skip_derived := true } = false :=
  ⟨by decide, rfl⟩

/-- Claim C10, amended: for a file whose lowercased name ends in one
of the non DICOM extensions, when its read succeeds and the skip
filters are disabled, copy_dicom_image returns without any write, yet
the work unit returns the success outcome and the run counts it in
the succeeded counter (a one file run completes with one success and
no failure). -/

theorem claim_C10_amended (job : FileJob) (dest pat : String) (o : RunOpts)
    (ds : Dataset)
    (hext : isNonDicomName job.name = true)
    (hread : job.read = Except.ok ds)
    (hsd : o.skip_derived = false) (hsb : o.skip_burned_in = false) :
    copy_dicom_image job dest pat o = Except.ok none ∧
    process_file job dest pat o = true ∧
    copy_directory [job] dest pat o none = RunOutcome.completed 1 0 := by
  have hcopy : copy_dicom_image job dest pat o = Except.ok none := by
    unfold copy_dicom_image
    rw [hext]
    simp
  have hpf : process_file job dest pat o = true := by
    unfold process_file
    rw [hread]
    simp only [hsd, hsb, Bool.false_eq_true, if_false, Bool.false_and]
    rw [hcopy]
  refine ⟨hcopy, hpf, ?_⟩
  unfold copy_directory
  simp only [List.map, hpf]
  rfl

theorem claim_C10_witness :
    copy_dicom_image ⟨"scan.png", Except.ok ⟨[], []⟩, ""⟩ "out" sortPattern
      {} = Except.ok none ∧
    process_file ⟨"scan.png", Except.ok ⟨[], []⟩, ""⟩ "out" sortPattern {} =
      true ∧
    copy_directory [⟨"scan.png", Except.ok ⟨[], []⟩, ""⟩] "out" sortPattern
      {} none = RunOutcome.completed 1 0 :=
  claim_C10_amended ⟨"scan.png", Except.ok ⟨[], []⟩, ""⟩ "out" sortPattern
    {} ⟨[], []⟩ (by decide) rfl rfl rfl
